import Mathlib

/-!
Shallow embedding of the yt-wrapped data-collection and statistics pipeline
(`src/public/services/youtrackClient.js`, `src/public/services/dataCollector.js`,
`src/public/services/statisticsCalculator.js`).

Conventions of the embedding:
* JS millisecond timestamps are `Int` (milliseconds since the Unix epoch, UTC).
* JS `Date` parsing of ISO instants (`new Date("YYYY-MM-DDTHH:MM:SSZ").getTime()`)
  is embedded by an explicit proleptic-Gregorian calendar (`daysFromEpoch`,
  `msOfInstant`), matching the ECMAScript `MakeDay`/`MakeTime` definitions.
* The local-time accessors `getFullYear/getMonth/getDate/getDay/getHours` are
  embedded relative to an explicit timezone offset `tz` (milliseconds east of
  UTC), applied as `ts + tz` before splitting into calendar fields.
* JS `number` division whose denominator is data-dependent is embedded as
  `jsDiv : ℚ → ℚ → Option ℚ`, where `none` stands for the NaN/Infinity a JS
  division by zero would produce.  Divisions by nonzero literals stay plain.
* `Math.round` is Mathlib's `round` (both are `⌊x + 1/2⌋`).
* JS `Array.prototype.sort` with a numeric comparator is a stable sort; it is
  embedded as the stable insertion sort `jsSort`.
* JS objects used as string-keyed grouping maps preserve insertion order for
  their (non-integer-like) keys; they are embedded as association lists that
  append newly discovered keys at the end.
-/

/-! ## JS number and string helpers -/

/-- Guarded rational division: `none` models the NaN/±Infinity produced by a JS
division with zero denominator. -/
def jsDiv (a b : ℚ) : Option ℚ :=
  if b = 0 then none else some (a / b)

/-- JS `x?.length || 0` on an optional string: missing and empty both give 0. -/
def jsStrLen (s : Option String) : Nat :=
  match s with
  | none => 0
  | some t => t.length

/-- JS `s || d` on an optional string: `undefined` and the empty string are
falsy, so both fall back to the default. -/
def jsOr (s : Option String) (d : String) : String :=
  match s with
  | none => d
  | some t => if t = "" then d else t

/-! ## Stable sort (JS `Array.prototype.sort` with a consistent comparator) -/

/-- Insert `x` after every element `y` with `le y x` (so equal elements keep
their original relative order, as in the stable JS sort). -/
def jsInsert (le : α → α → Bool) (x : α) : List α → List α
  | [] => [x]
  | y :: ys => if le y x then y :: jsInsert le x ys else x :: y :: ys

/-- Stable sort by the boolean preorder `le`. -/
def jsSort (le : α → α → Bool) (l : List α) : List α :=
  l.foldl (fun acc x => jsInsert le x acc) []

/-! ## Calendar arithmetic (ECMAScript UTC date model) -/

/-- Gregorian leap-year test. -/
def isLeap (y : Int) : Bool :=
  (y % 4 == 0 && y % 100 != 0) || y % 400 == 0

/-- Days from 0001-01-01 to `y`-01-01 in the proleptic Gregorian calendar. -/
def daysToYear (y : Int) : Int :=
  365 * (y - 1) + (y - 1) / 4 - (y - 1) / 100 + (y - 1) / 400

/-- Days from the Unix epoch 1970-01-01 to `y`-01-01. -/
def daysBeforeYear (y : Int) : Int :=
  daysToYear y - daysToYear 1970

/-- Days in the months of a year strictly before month `m` (1-based). -/
def daysBeforeMonth (leap : Bool) (m : Int) : Int :=
  (if m = 1 then 0
   else if m = 2 then 31
   else if m = 3 then 59
   else if m = 4 then 90
   else if m = 5 then 120
   else if m = 6 then 151
   else if m = 7 then 181
   else if m = 8 then 212
   else if m = 9 then 243
   else if m = 10 then 273
   else if m = 11 then 304
   else if m = 12 then 334
   else 0)
  + (if leap && decide (2 < m) then 1 else 0)

/-- Days from the Unix epoch to the civil date `y-m-d` (ECMAScript `MakeDay`). -/
def daysFromEpoch (y m d : Int) : Int :=
  daysBeforeYear y + daysBeforeMonth (isLeap y) m + d - 1

/-- Epoch milliseconds of the UTC instant `y-m-dThh:mi:ssZ`
(`new Date("...Z").getTime()`). -/
def msOfInstant (y m d hh mi ss : Int) : Int :=
  (daysFromEpoch y m d * 86400 + hh * 3600 + mi * 60 + ss) * 1000

/-- A civil calendar date, standing for the zero-padded string `YYYY-MM-DD`
the source builds with `getFullYear`/`getMonth`/`getDate`.  For the 4-digit
years this program handles, lexicographic order on those strings coincides
with lexicographic order on the `(y, m, d)` triple. -/
structure Ymd where
  y : Int
  m : Int
  d : Int
deriving DecidableEq, Repr

/-- Lexicographic order on civil dates (the order JS string sort gives the
zero-padded `YYYY-MM-DD` date strings). -/
def ymdLe (a b : Ymd) : Bool :=
  decide (a.y < b.y ∨ (a.y = b.y ∧ (a.m < b.m ∨ (a.m = b.m ∧ a.d ≤ b.d))))

/-- Epoch days of a civil date (`new Date("YYYY-MM-DD").getTime()/86400000`:
date-only ISO strings are parsed as UTC midnight). -/
def ymdToDays (x : Ymd) : Int :=
  daysFromEpoch x.y x.m x.d

/-- Civil date of an epoch day count (inverse calendar conversion, following
the standard era-based Gregorian algorithm). -/
def civilFromDays (z0 : Int) : Ymd :=
  let z := z0 + 719468
  let era := z / 146097
  let doe := z - era * 146097
  let yoe := (doe - doe / 1460 + doe / 36524 - doe / 146096) / 365
  let y := yoe + era * 400
  let doy := doe - (365 * yoe + yoe / 4 - yoe / 100)
  let mp := (5 * doy + 2) / 153
  let d := doy - (153 * mp + 2) / 5 + 1
  let m := if mp < 10 then mp + 3 else mp - 9
  ⟨if m ≤ 2 then y + 1 else y, m, d⟩

/-- Epoch days of the local calendar day containing timestamp `ts`, for a
timezone `tz` milliseconds east of UTC. -/
def localDays (tz ts : Int) : Int :=
  (ts + tz) / 86400000

/-- Local calendar date of a timestamp (what
`getFullYear`/`getMonth() + 1`/`getDate` produce). -/
def localYmd (tz ts : Int) : Ymd :=
  civilFromDays (localDays tz ts)

/-- JS `Date.prototype.getDay` (0 = Sunday) in timezone `tz`;
1970-01-01 was a Thursday (= 4). -/
def jsGetDay (tz ts : Int) : Int :=
  (localDays tz ts + 4) % 7

/-- JS `Date.prototype.getHours` in timezone `tz`. -/
def jsGetHours (tz ts : Int) : Int :=
  ((ts + tz) % 86400000) / 3600000

/-! ## Entity model (§3 of the spec, shapes used by the services) -/

/-- The slice of a YouTrack user the pipeline reads (`login` only). -/
structure UserRef where
  login : String
deriving DecidableEq, Repr

/-- `project(id,name,shortName)` as requested by the client; `name` and
`shortName` may be absent in a response. -/
structure ProjectRef where
  name : Option String
  shortName : Option String
deriving DecidableEq, Repr

/-- An issue as used by the calculator: `created`/`resolved` timestamps,
`summary`, and `project` may each be absent. -/
structure Issue where
  summary : Option String
  created : Int
  resolved : Option Int
  project : Option ProjectRef
deriving DecidableEq, Repr

/-- A raw issue comment as embedded in an issues-with-comments response. -/
structure RawComment where
  text : Option String
  created : Int
  author : Option UserRef
deriving DecidableEq, Repr

/-- The lightweight back-reference to the parent issue that
`extractUserComments` attaches to each kept comment. -/
structure IssueLite where
  id : String
  idReadable : String
  summary : Option String
  project : Option ProjectRef
deriving DecidableEq, Repr

/-- An issue returned by the issues-with-comments query; `comments` may be
absent (`if (!issue.comments) continue`). -/
structure IssueWithComments where
  id : String
  idReadable : String
  summary : Option String
  project : Option ProjectRef
  comments : Option (List RawComment)
deriving DecidableEq, Repr

/-- A user comment after extraction/enrichment by the collector. -/
structure Comment where
  text : Option String
  created : Int
  author : Option UserRef
  issue : IssueLite
deriving DecidableEq, Repr

/-- A knowledge-base article. -/
structure Article where
  content : Option String
  created : Int
  reporter : Option UserRef
  project : Option ProjectRef
deriving DecidableEq, Repr

/-- The collector's output `RawYearDataset` (the `collectedAt` wall-clock
timestamp is omitted: it records the real time of the run and takes no part
in any computation). -/
structure YearData where
  user : UserRef
  year : Int
  createdIssues : List Issue
  resolvedIssues : List Issue
  comments : List Comment
  articles : List Article
deriving DecidableEq, Repr

/-! ## API Gateway (`youtrackClient.js`) -/

/-- A JS exception flowing through the client, as the source distinguishes
them: the generic `new Error("YouTrack API error (status): body")` thrown by
`request` for every non-2xx response, the underlying error rethrown when
`fetch` itself fails, and an exception thrown by a progress callback. -/
inductive Err where
  | apiError (status : Nat) (body : String)
  | fetchError (msg : String)
  | cbError (msg : String)
deriving DecidableEq, Repr

/-- Constructor tag of an error: errors with the same tag are the same
JS error kind. -/
def errCtor : Err → Nat
  | .apiError _ _ => 0
  | .fetchError _ => 1
  | .cbError _ => 2

/-- Outcome of one `fetch`: either the request could not be sent, or the
server answered with a status code and a raw body. -/
inductive FetchOutcome where
  | networkFailure (msg : String)
  | response (status : Nat) (body : String)
deriving DecidableEq, Repr

/-- `YouTrackClient.request`: on a response, `response.ok` (status 200–299)
returns the parsed body, any other status throws the generic API error
carrying the status and the raw body text; a failed `fetch` is rethrown
unchanged. -/
def request : FetchOutcome → Except Err String
  | .networkFailure m => .error (.fetchError m)
  | .response st body =>
      if 200 ≤ st ∧ st ≤ 299 then .ok body else .error (.apiError st body)

/-- `YouTrackClient.getCurrentUser`: a single `request` to
`/users/me?fields=...`, its outcome modelled by the one `FetchOutcome`. -/
def getCurrentUser (o : FetchOutcome) : Except Err String :=
  request o

/-- An optional progress callback; a `some` callback may itself throw. -/
def Cb := Option (String → Except Err Unit)

/-- Invoke the callback if present (`if (onProgress) onProgress(message)`). -/
def callP (cb : Cb) (msg : String) : Except Err Unit :=
  match cb with
  | none => .ok ()
  | some f => f msg

/-- One page response of a paginated endpoint: the request may throw, or
return a page of items.  The `i`-th element of a response list models the
server's answer to the request with `$skip = 100 * i` (the loops request
`$top=100` pages at offsets 0, 100, 200, …); past the end of the list the
server is taken to answer with an empty page. -/
def PageResp (α : Type) := Except Err (List α)

/-- The pagination loop shared by `getIssuesCreatedByUser`,
`getIssuesResolvedByUser` and `getIssuesWithComments`: request a page; stop on
an empty page; otherwise concatenate, report progress (`acc` is the running
total already fetched), and stop when the page is short (< 100).  Returns the
result together with the number of requests issued. -/
def fetchPages (cb : Cb) (label : String) (acc : Nat) :
    List (PageResp α) → Except Err (List α) × Nat
  | [] => (.ok [], 1)
  | .error e :: _ => (.error e, 1)
  | .ok p :: rs =>
      if p.length = 0 then (.ok [], 1)
      else
        match callP cb ("Fetched " ++ toString (acc + p.length) ++ " " ++ label) with
        | .error e => (.error e, 1)
        | .ok () =>
            if p.length < 100 then (.ok p, 1)
            else
              match fetchPages cb label (acc + p.length) rs with
              | (.ok rest, n) => (.ok (p ++ rest), n + 1)
              | (.error e, n) => (.error e, n + 1)

/-- The per-project pagination loop inside `getArticles` (same page protocol,
no progress callback inside the loop). -/
def fetchArticlePages : List (PageResp Article) → Except Err (List Article) × Nat
  | [] => (.ok [], 1)
  | .error e :: _ => (.error e, 1)
  | .ok p :: rs =>
      if p.length = 0 then (.ok [], 1)
      else if p.length < 100 then (.ok p, 1)
      else
        match fetchArticlePages rs with
        | (.ok rest, n) => (.ok (p ++ rest), n + 1)
        | (.error e, n) => (.error e, n + 1)

/-- `YouTrackClient.getArticles`: empty input returns immediately with no
request; otherwise each project's pagination runs inside a `try` whose `catch`
swallows the failure (nothing of the failing project is kept, since the push
of its articles happens only after its loop completes) and continues with the
remaining projects.  The progress call sits inside the same `try`, after the
push, so a throwing callback is swallowed too and cannot change the result.
Returns the collected articles and the total number of requests issued. -/
def getArticles (cb : Cb) (serve : String → List (PageResp Article))
    (projectShortNames : List String) : List Article × Nat :=
  if projectShortNames.length = 0 then ([], 0)
  else
    projectShortNames.foldl
      (fun st sn =>
        match fetchArticlePages (serve sn) with
        | (.ok l, n) =>
            let _ := callP cb ("Fetched " ++ toString (st.1.length + l.length) ++ " articles...")
            (st.1 ++ l, st.2 + n)
        | (.error _, n) => (st.1, st.2 + n))
      ([], 0)

/-! ## Collector (`dataCollector.js`) -/

/-- `DataCollector.extractUserComments`: scan each issue's embedded comment
list, keep comments authored by `userLogin` whose `created` lies in the closed
UTC window `[year-01-01T00:00:00Z, year-12-31T23:59:59Z]`, and enrich each
kept comment with a lightweight back-reference to its parent issue. -/
def extractUserComments (issues : List IssueWithComments) (userLogin : String)
    (year : Int) : List Comment :=
  let yearStart := msOfInstant year 1 1 0 0 0
  let yearEnd := msOfInstant year 12 31 23 59 59
  issues.foldl
    (fun acc iss =>
      match iss.comments with
      | none => acc
      | some cs =>
          acc ++ (cs.filter (fun c =>
              match c.author with
              | none => false
              | some a =>
                  decide (a.login = userLogin) &&
                  decide (yearStart ≤ c.created) &&
                  decide (c.created ≤ yearEnd))).map
            (fun c => { text := c.text, created := c.created, author := c.author,
                        issue := ⟨iss.id, iss.idReadable, iss.summary, iss.project⟩ }))
    []

/-- `DataCollector.filterArticlesByUserAndYear`: keep articles whose reporter
is `userLogin` and whose `created` lies in the same closed UTC year window. -/
def filterArticlesByUserAndYear (articles : List Article) (userLogin : String)
    (year : Int) : List Article :=
  let yearStart := msOfInstant year 1 1 0 0 0
  let yearEnd := msOfInstant year 12 31 23 59 59
  articles.filter (fun a =>
    match a.reporter with
    | none => false
    | some r =>
        decide (r.login = userLogin) &&
        decide (yearStart ≤ a.created) &&
        decide (a.created ≤ yearEnd))

/-- The external world one collection run interacts with: the current-user
response and the page responses of the four fetches. -/
structure Server where
  currentUserResp : Except Err UserRef
  createdPages : List (PageResp Issue)
  resolvedPages : List (PageResp Issue)
  commentPages : List (PageResp IssueWithComments)
  articleResp : String → List (PageResp Article)

/-- `DataCollector.collectYearData`: fetch the current user, run the four
fetches (their results joined; a failure of any one fails the whole
collection, so the sequential composition below yields the same
`Except`-level outcome as the source's `Promise.all`), then extract the
user's comments and filter the articles.  `updateProgress` forwards to the
optional callback unguarded, so a callback exception thrown outside the
article fetch propagates and fails the run. -/
def collectYearData (server : Server) (year : Int)
    (articleProjects : List String) (cb : Cb) : Except Err YearData := do
  let _ ← callP cb "Fetching your user information..."
  let currentUser ← server.currentUserResp
  let _ ← callP cb "Fetching your issues, comments, and articles..."
  let createdIssues ← (fetchPages cb "created issues..." 0 server.createdPages).1
  let resolvedIssues ← (fetchPages cb "resolved issues..." 0 server.resolvedPages).1
  let issuesWithComments ← (fetchPages cb "issues with comments..." 0 server.commentPages).1
  let allArticles := (getArticles cb server.articleResp articleProjects).1
  let _ ← callP cb "Processing your comments..."
  let userComments := extractUserComments issuesWithComments currentUser.login year
  let _ ← callP cb "Processing your articles..."
  let userArticles := filterArticlesByUserAndYear allArticles currentUser.login year
  return { user := currentUser, year := year, createdIssues := createdIssues,
           resolvedIssues := resolvedIssues, comments := userComments,
           articles := userArticles }

/-! ## Aggregator (`statisticsCalculator.js`) -/

/-- `calculateSummary` result. -/
structure Summary where
  totalIssuesCreated : Nat
  totalIssuesResolved : Nat
  totalComments : Nat
  totalArticles : Nat
  totalContributions : Nat
deriving DecidableEq, Repr

/-- `StatisticsCalculator.calculateSummary`. -/
def calculateSummary (data : YearData) : Summary :=
  { totalIssuesCreated := data.createdIssues.length
    totalIssuesResolved := data.resolvedIssues.length
    totalComments := data.comments.length
    totalArticles := data.articles.length
    totalContributions :=
      data.createdIssues.length + data.resolvedIssues.length +
      data.comments.length + data.articles.length }

/-- Sum of `resolved - created` over a list of issues
(the `reduce((sum, i) => sum + (i.resolved - i.created), 0)`; the `none`
branch is unreachable on the filtered list it is applied to). -/
def resolutionSum (l : List Issue) : Int :=
  l.foldl (fun s i =>
    match i.resolved with
    | some r => s + (r - i.created)
    | none => s) 0

/-- `calculateIssueStats` result.  The two average fields embed JS numbers
computed by data-dependent division, so they are `Option`-valued: `none`
stands for NaN/Infinity. -/
structure IssueStats where
  total : Nat
  resolved : Nat
  avgResolutionTimeMs : Option ℚ
  avgResolutionTimeDays : Option Int
  longestSummary : Option Issue
  shortestSummary : Option Issue
deriving DecidableEq, Repr

/-- `StatisticsCalculator.calculateIssueStats`. -/
def calculateIssueStats (data : YearData) : IssueStats :=
  let issues := data.createdIssues
  let resolvedCreatedIssues := issues.filter (fun i => i.resolved.isSome)
  let avgResolutionTime : Option ℚ :=
    if resolvedCreatedIssues.length > 0 then
      jsDiv (resolutionSum resolvedCreatedIssues : ℚ) (resolvedCreatedIssues.length : ℚ)
    else some 0
  let sortedBySummaryLength :=
    jsSort (fun a b => decide (jsStrLen b.summary ≤ jsStrLen a.summary)) issues
  { total := issues.length
    resolved := data.resolvedIssues.length
    avgResolutionTimeMs := avgResolutionTime
    avgResolutionTimeDays := avgResolutionTime.map (fun q => round (q / (1000 * 60 * 60 * 24)))
    longestSummary := sortedBySummaryLength.head?
    shortestSummary := sortedBySummaryLength.getLast? }

/-- `calculateCommentStats` result (`avgLength` is `Option` for the same
NaN-modelling reason). -/
structure CommentStats where
  total : Nat
  avgLength : Option Int
  totalCharacters : Nat
  longestComment : Option Comment
  shortestComment : Option Comment
  mostCommentedIssue : Option (IssueLite × Nat)
deriving DecidableEq, Repr

/-- Increment the per-issue comment counter, grouping by `idReadable` and
keeping the first-encountered issue object and discovery order (JS object
with string keys). -/
def bumpIssue (iss : IssueLite) : List (IssueLite × Nat) → List (IssueLite × Nat)
  | [] => [(iss, 1)]
  | (i, n) :: rest =>
      if i.idReadable = iss.idReadable then (i, n + 1) :: rest
      else (i, n) :: bumpIssue iss rest

/-- `StatisticsCalculator.calculateCommentStats`. -/
def calculateCommentStats (data : YearData) : CommentStats :=
  let comments := data.comments
  if comments.length = 0 then
    { total := 0, avgLength := some 0, totalCharacters := 0,
      longestComment := none, shortestComment := none, mostCommentedIssue := none }
  else
    let commentLengths := comments.map (fun c => (c, jsStrLen c.text))
    let totalChars : Nat := commentLengths.foldl (fun s p => s + p.2) 0
    let sorted := jsSort (fun a b => decide (b.2 ≤ a.2)) commentLengths
    let issueCommentCounts := comments.foldl (fun acc c => bumpIssue c.issue acc) []
    let mostCommentedIssue :=
      (jsSort (fun a b => decide (b.2 ≤ a.2)) issueCommentCounts).head?
    { total := comments.length
      avgLength := (jsDiv (totalChars : ℚ) (comments.length : ℚ)).map round
      totalCharacters := totalChars
      longestComment := (sorted.head?).map (fun p => p.1)
      shortestComment := (sorted.getLast?).map (fun p => p.1)
      mostCommentedIssue := mostCommentedIssue }

/-- `calculateArticleStats` result. -/
structure ArticleStats where
  total : Nat
  totalContentLength : Nat
  avgContentLength : Option Int
  longestArticle : Option Article
deriving DecidableEq, Repr

/-- `StatisticsCalculator.calculateArticleStats`. -/
def calculateArticleStats (data : YearData) : ArticleStats :=
  let articles := data.articles
  if articles.length = 0 then
    { total := 0, totalContentLength := 0, avgContentLength := some 0,
      longestArticle := none }
  else
    let contentLengths := articles.map (fun a => (a, jsStrLen a.content))
    let totalLength : Nat := contentLengths.foldl (fun s p => s + p.2) 0
    let sorted := jsSort (fun a b => decide (b.2 ≤ a.2)) contentLengths
    { total := articles.length
      totalContentLength := totalLength
      avgContentLength := (jsDiv (totalLength : ℚ) (articles.length : ℚ)).map round
      longestArticle := (sorted.head?).map (fun p => p.1) }

/-- A per-project counter group (`projectCounts[projectName]`). -/
structure ProjCounts where
  name : String
  shortName : String
  issuesCreated : Nat
  issuesResolved : Nat
  comments : Nat
deriving DecidableEq, Repr

/-- A project group with its `totalActivity` sum attached. -/
structure ProjTotal where
  name : String
  shortName : String
  issuesCreated : Nat
  issuesResolved : Nat
  comments : Nat
  totalActivity : Nat
deriving DecidableEq, Repr

/-- `calculateProjectStats` result. -/
structure ProjectStats where
  totalProjects : Nat
  projects : List ProjTotal
  topProject : Option ProjTotal
deriving DecidableEq, Repr

/-- Grouping key: `project?.name || 'Unknown'`. -/
def projName (p : Option ProjectRef) : String :=
  jsOr (p.bind (fun q => q.name)) "Unknown"

/-- `project?.shortName || '?'` (used only when a group is first created). -/
def projShort (p : Option ProjectRef) : String :=
  jsOr (p.bind (fun q => q.shortName)) "?"

/-- Apply `f` to the group named `name`, creating a fresh zero group (with
this item's `shortName`) at the end of the list when the key is new. -/
def updateProj (name sn : String) (f : ProjCounts → ProjCounts) :
    List ProjCounts → List ProjCounts
  | [] => [f ⟨name, sn, 0, 0, 0⟩]
  | p :: ps =>
      if p.name = name then f p :: ps else p :: updateProj name sn f ps

/-- `StatisticsCalculator.calculateProjectStats`: three grouping passes
(created issues, then resolved issues, then comments) into one
insertion-ordered map, then a stable descending sort by `totalActivity`. -/
def calculateProjectStats (data : YearData) : ProjectStats :=
  let g1 := data.createdIssues.foldl
    (fun acc i => updateProj (projName i.project) (projShort i.project)
      (fun p => { p with issuesCreated := p.issuesCreated + 1 }) acc) []
  let g2 := data.resolvedIssues.foldl
    (fun acc i => updateProj (projName i.project) (projShort i.project)
      (fun p => { p with issuesResolved := p.issuesResolved + 1 }) acc) g1
  let g3 := data.comments.foldl
    (fun acc c => updateProj (projName c.issue.project) (projShort c.issue.project)
      (fun p => { p with comments := p.comments + 1 }) acc) g2
  let projects := jsSort (fun a b => decide (b.totalActivity ≤ a.totalActivity))
    (g3.map (fun p =>
      (⟨p.name, p.shortName, p.issuesCreated, p.issuesResolved, p.comments,
        p.issuesCreated + p.issuesResolved + p.comments⟩ : ProjTotal)))
  { totalProjects := projects.length
    projects := projects
    topProject := projects.head? }

/-- All contributing activity events, reduced to their creation timestamps
(created issues, comments, articles; resolved issues do not contribute). -/
def allActivities (data : YearData) : List Int :=
  data.createdIssues.map (fun i => i.created) ++
  data.comments.map (fun c => c.created) ++
  data.articles.map (fun a => a.created)

/-- Increment the bucket for `k` in a fixed-domain histogram; a key outside
the pre-initialized domain is dropped (unreachable for the total key
functions used below). -/
def bumpKey (k : Int) : List (Int × Nat) → List (Int × Nat)
  | [] => []
  | (k', v) :: rest =>
      if k' = k then (k', v + 1) :: rest else (k', v) :: bumpKey k rest

/-- The integer keys `a, a+1, …, b` in ascending order (the enumeration order
JS gives the integer-like keys of the histogram objects). -/
def intRange (a b : Int) : List Int :=
  (List.range (b - a + 1).toNat).map (fun i => a + i)

/-- Build a histogram over a fixed domain: every bucket initialized to 0,
then one increment per key occurrence. -/
def histo (dom : List Int) (keys : List Int) : List (Int × Nat) :=
  keys.foldl (fun acc k => bumpKey k acc) (dom.map (fun k => (k, 0)))

/-- The longest-streak result; `startDate`/`endDate` are `none` exactly when
the source returns `null` for them. -/
structure Streak where
  days : Nat
  startDate : Option Ymd
  endDate : Option Ymd
deriving DecidableEq, Repr

/-- Deduplication keeping first occurrences in encounter order
(`new Set(...)` iterates insertion order). -/
def jsSetDedup (seen : List Ymd) : List Ymd → List Ymd
  | [] => []
  | x :: xs =>
      if x ∈ seen then jsSetDedup seen xs
      else x :: jsSetDedup (x :: seen) xs

/-- The scan over the sorted unique day list: `prev` is the previous day,
`cur`/`curStart` the running streak, `best` the `(length, start, end)` of the
longest streak so far.  A run continues when consecutive dates differ by
exactly one calendar day (the source reparses the date strings and compares
the millisecond difference with one day). -/
def streakScan (best : Nat × Ymd × Ymd) (cur : Nat) (curStart prev : Ymd) :
    List Ymd → Nat × Ymd × Ymd
  | [] => best
  | d :: rest =>
      if ymdToDays d - ymdToDays prev = 1 then
        let cur' := cur + 1
        if best.1 < cur' then streakScan (cur', curStart, d) cur' curStart d rest
        else streakScan best cur' curStart d rest
      else streakScan best 1 d d rest

/-- `StatisticsCalculator.calculateLongestStreak`: map every activity to its
local calendar date, deduplicate, sort ascending (string sort on zero-padded
`YYYY-MM-DD` = lexicographic date order), then scan for the longest run of
consecutive days.  The inner `[]` case is unreachable (the sorted list of a
nonempty activity list is nonempty). -/
def calculateLongestStreak (tz : Int) (activities : List Int) : Streak :=
  if activities.length = 0 then { days := 0, startDate := none, endDate := none }
  else
    let activeDays := jsSetDedup [] (activities.map (localYmd tz))
    let sortedDays := jsSort ymdLe activeDays
    match sortedDays with
    | [] => { days := 1, startDate := none, endDate := none }
    | d0 :: rest =>
        let r := streakScan (1, d0, d0) 1 d0 d0 rest
        { days := r.1, startDate := some r.2.1, endDate := some r.2.2 }

/-- `busiestMonth` entry of the time stats. -/
structure BusiestMonth where
  month : Int
  monthName : String
  count : Nat
deriving DecidableEq, Repr

/-- `busiestDayOfWeek` entry of the time stats. -/
structure BusiestDay where
  day : Int
  dayName : String
  count : Nat
deriving DecidableEq, Repr

/-- `busiestHour` entry of the time stats. -/
structure BusiestHour where
  hour : Int
  count : Nat
deriving DecidableEq, Repr

/-- `calculateTimeStats` result. -/
structure TimeStats where
  monthlyActivity : List (Int × Nat)
  dayOfWeekActivity : List (Int × Nat)
  hourlyActivity : List (Int × Nat)
  busiestMonth : Option BusiestMonth
  busiestDayOfWeek : Option BusiestDay
  busiestHour : Option BusiestHour
  longestStreak : Streak
deriving DecidableEq, Repr

/-- The source's `monthNames` table (index 0 unused). -/
def monthNames : List String :=
  ["", "January", "February", "March", "April", "May", "June",
   "July", "August", "September", "October", "November", "December"]

/-- The source's `dayNames` table (0 = Sunday). -/
def dayNames : List String :=
  ["Sunday", "Monday", "Tuesday", "Wednesday", "Thursday", "Friday", "Saturday"]

/-- `StatisticsCalculator.calculateTimeStats`: fixed-domain histograms over
months 1–12, weekdays 0–6 and hours 0–23, the busiest bucket of each (stable
descending sort by count, then first entry — so ties go to the lowest key),
and the longest streak. -/
def calculateTimeStats (tz : Int) (data : YearData) : TimeStats :=
  let acts := allActivities data
  let monthlyActivity := histo (intRange 1 12) (acts.map (fun ts => (localYmd tz ts).m))
  let dayOfWeekActivity := histo (intRange 0 6) (acts.map (fun ts => jsGetDay tz ts))
  let hourlyActivity := histo (intRange 0 23) (acts.map (fun ts => jsGetHours tz ts))
  let byCount : (Int × Nat) → (Int × Nat) → Bool := fun a b => decide (b.2 ≤ a.2)
  let busiestMonth := (jsSort byCount monthlyActivity).head?
  let busiestDayOfWeek := (jsSort byCount dayOfWeekActivity).head?
  let busiestHour := (jsSort byCount hourlyActivity).head?
  { monthlyActivity := monthlyActivity
    dayOfWeekActivity := dayOfWeekActivity
    hourlyActivity := hourlyActivity
    busiestMonth := busiestMonth.map (fun e => ⟨e.1, monthNames.getD e.1.toNat "", e.2⟩)
    busiestDayOfWeek := busiestDayOfWeek.map (fun e => ⟨e.1, dayNames.getD e.1.toNat "", e.2⟩)
    busiestHour := busiestHour.map (fun e => ⟨e.1, e.2⟩)
    longestStreak := calculateLongestStreak tz acts }

/-- One generated fun fact.  Locale formatting (`toLocaleString`, plural
suffixes, apostrophes) is flattened to plain concatenation; a `none` from a
modelled division prints as "NaN", as JS string interpolation would. -/
structure FunFact where
  icon : String
  text : String
  comparison : String
deriving DecidableEq, Repr

/-- Zero-pad a (nonnegative, two-digit) calendar component. -/
def pad2 (n : Int) : String :=
  if n < 10 then "0" ++ toString n else toString n

/-- The `YYYY-MM-DD` date string of a civil date. -/
def ymdString (x : Ymd) : String :=
  toString x.y ++ "-" ++ pad2 x.m ++ "-" ++ pad2 x.d

/-- Print an optional integer, `none` (a NaN) printing as "NaN". -/
def optIntStr (o : Option Int) : String :=
  match o with
  | none => "NaN"
  | some k => toString k

/-- The hour-of-day personality table of `calculateFunFacts`. -/
def hourPersonality (hour : Int) : String :=
  if 5 ≤ hour ∧ hour < 9 then "Early Bird"
  else if 9 ≤ hour ∧ hour < 12 then "Morning Person"
  else if 12 ≤ hour ∧ hour < 17 then "Afternoon Warrior"
  else if 17 ≤ hour ∧ hour < 21 then "Evening Coder"
  else "Night Owl"

/-- `StatisticsCalculator.calculateFunFacts`: the five candidate facts in
source order.  Note the busiest-day and busiest-hour facts are guarded only
by the truthiness of the busiest objects, which exist even for an empty
dataset (with count 0). -/
def calculateFunFacts (tz : Int) (data : YearData) : List FunFact :=
  let summary := calculateSummary data
  let commentStats := calculateCommentStats data
  let timeStats := calculateTimeStats tz data
  let charsFact : List FunFact :=
    if commentStats.totalCharacters > 0 then
      let pages : Int := round ((commentStats.totalCharacters : ℚ) / 3000)
      if pages > 0 then
        [⟨"📝",
          "You wrote " ++ toString commentStats.totalCharacters ++ " characters in comments",
          "That is about " ++ toString pages ++ " pages of text!"⟩]
      else []
    else []
  let dayFact : List FunFact :=
    match timeStats.busiestDayOfWeek with
    | none => []
    | some b =>
        [⟨"📅", b.dayName ++ " was your power day",
          toString b.count ++ " activities on " ++ b.dayName ++ "s"⟩]
  let hourFact : List FunFact :=
    match timeStats.busiestHour with
    | none => []
    | some b =>
        [⟨"⏰", "You are a " ++ hourPersonality b.hour,
          "Most active around " ++ toString b.hour ++ ":00"⟩]
  let streakFact : List FunFact :=
    if timeStats.longestStreak.days > 1 then
      [⟨"🔥", toString timeStats.longestStreak.days ++ "-day activity streak!",
        "From " ++ (match timeStats.longestStreak.startDate with
                    | some s => ymdString s | none => "") ++
        " to " ++ (match timeStats.longestStreak.endDate with
                   | some e => ymdString e | none => "")⟩]
    else []
  let monthlyIssues : ℚ := (summary.totalIssuesCreated : ℚ) / 12
  let monthlyFact : List FunFact :=
    if monthlyIssues ≥ 1 then
      [⟨"📊", "You created ~" ++ toString (round monthlyIssues) ++ " issues per month",
        "That is one every " ++ optIntStr ((jsDiv 30 monthlyIssues).map round) ++
        " days on average"⟩]
    else []
  charsFact ++ dayFact ++ hourFact ++ streakFact ++ monthlyFact

/-- An achievement badge. -/
structure Achievement where
  id : String
  name : String
  description : String
  icon : String
deriving DecidableEq, Repr

/-- Histogram lookup; absent keys read as 0 (`|| 0`). -/
def lookupCount (l : List (Int × Nat)) (k : Int) : Nat :=
  match l.find? (fun p => p.1 == k) with
  | some p => p.2
  | none => 0

/-- `timeStats.dayOfWeekActivity[0] + timeStats.dayOfWeekActivity[6]`. -/
def weekendActivity (ts : TimeStats) : Nat :=
  lookupCount ts.dayOfWeekActivity 0 + lookupCount ts.dayOfWeekActivity 6

/-- `[22,23,0,1,2,3,4].reduce((sum,h) => sum + (hourlyActivity[h] || 0), 0)`. -/
def nightActivity (ts : TimeStats) : Nat :=
  [22, 23, 0, 1, 2, 3, 4].foldl (fun s h => s + lookupCount ts.hourlyActivity h) 0

/-- `[5,6,7,8].reduce((sum,h) => sum + (hourlyActivity[h] || 0), 0)`. -/
def morningActivity (ts : TimeStats) : Nat :=
  [5, 6, 7, 8].foldl (fun s h => s + lookupCount ts.hourlyActivity h) 0

/-- Issue-creator ladder (if / else-if chain: highest met tier only). -/
def issueCreatedBadges (n : Nat) : List Achievement :=
  if n ≥ 100 then [⟨"issue_master", "Issue Master", "Created 100+ issues", "🏆"⟩]
  else if n ≥ 50 then [⟨"issue_expert", "Issue Expert", "Created 50+ issues", "🥇"⟩]
  else if n ≥ 20 then [⟨"issue_enthusiast", "Issue Enthusiast", "Created 20+ issues", "🥈"⟩]
  else if n ≥ 5 then [⟨"issue_starter", "Issue Starter", "Created 5+ issues", "🥉"⟩]
  else []

/-- Bug-crusher ladder. -/
def resolvedBadges (n : Nat) : List Achievement :=
  if n ≥ 100 then [⟨"bug_crusher", "Bug Crusher", "Resolved 100+ issues", "🐛"⟩]
  else if n ≥ 50 then [⟨"bug_hunter", "Bug Hunter", "Resolved 50+ issues", "🔍"⟩]
  else if n ≥ 20 then [⟨"bug_squasher", "Bug Squasher", "Resolved 20+ issues", "👊"⟩]
  else []

/-- Commenter ladder. -/
def commentBadges (n : Nat) : List Achievement :=
  if n ≥ 500 then [⟨"chatterbox", "Chatterbox", "Left 500+ comments", "💬"⟩]
  else if n ≥ 200 then [⟨"conversationalist", "Conversationalist", "Left 200+ comments", "🗣️"⟩]
  else if n ≥ 50 then [⟨"contributor", "Contributor", "Left 50+ comments", "✍️"⟩]
  else []

/-- Documentation ladder. -/
def articleBadges (n : Nat) : List Achievement :=
  if n ≥ 20 then [⟨"documentation_hero", "Documentation Hero", "Created 20+ articles", "📚"⟩]
  else if n ≥ 10 then [⟨"knowledge_sharer", "Knowledge Sharer", "Created 10+ articles", "📖"⟩]
  else if n ≥ 3 then [⟨"writer", "Writer", "Created 3+ articles", "✏️"⟩]
  else []

/-- Streak ladder. -/
def streakBadges (days : Nat) : List Achievement :=
  if days ≥ 30 then [⟨"unstoppable", "Unstoppable", "30+ day streak", "🔥"⟩]
  else if days ≥ 14 then [⟨"consistent", "Consistent", "14+ day streak", "⚡"⟩]
  else if days ≥ 7 then [⟨"dedicated", "Dedicated", "7+ day streak", "💪"⟩]
  else []

/-- Multi-project ladder. -/
def projectBadges (n : Nat) : List Achievement :=
  if n ≥ 10 then [⟨"polyglot", "Polyglot", "Active in 10+ projects", "🌍"⟩]
  else if n ≥ 5 then [⟨"versatile", "Versatile", "Active in 5+ projects", "🎯"⟩]
  else []

/-- Weekend-warrior flag. -/
def weekendFlag (weekend : Nat) : List Achievement :=
  if weekend > 20 then [⟨"weekend_warrior", "Weekend Warrior", "Active on weekends", "🦸"⟩]
  else []

/-- Night-owl flag. -/
def nightFlag (night : Nat) : List Achievement :=
  if night > 20 then [⟨"night_owl", "Night Owl", "Active late at night", "🦉"⟩]
  else []

/-- Early-bird flag. -/
def morningFlag (morning : Nat) : List Achievement :=
  if morning > 20 then [⟨"early_bird", "Early Bird", "Active early morning", "🐦"⟩]
  else []

/-- `StatisticsCalculator.calculateAchievements`: the sequential pushes of the
source are the concatenation of the six ladders and three flags, in source
order. -/
def calculateAchievements (tz : Int) (data : YearData) : List Achievement :=
  let summary := calculateSummary data
  let timeStats := calculateTimeStats tz data
  let projectStats := calculateProjectStats data
  issueCreatedBadges summary.totalIssuesCreated ++
  resolvedBadges summary.totalIssuesResolved ++
  commentBadges summary.totalComments ++
  articleBadges summary.totalArticles ++
  streakBadges timeStats.longestStreak.days ++
  projectBadges projectStats.totalProjects ++
  weekendFlag (weekendActivity timeStats) ++
  nightFlag (nightActivity timeStats) ++
  morningFlag (morningActivity timeStats)

/-- The full `StatisticsReport`. -/
structure Report where
  user : UserRef
  year : Int
  summary : Summary
  issueStats : IssueStats
  commentStats : CommentStats
  articleStats : ArticleStats
  projectStats : ProjectStats
  timeStats : TimeStats
  funFacts : List FunFact
  achievements : List Achievement
deriving DecidableEq, Repr

/-- `StatisticsCalculator.calculateAll`. -/
def calculateAll (tz : Int) (data : YearData) : Report :=
  { user := data.user
    year := data.year
    summary := calculateSummary data
    issueStats := calculateIssueStats data
    commentStats := calculateCommentStats data
    articleStats := calculateArticleStats data
    projectStats := calculateProjectStats data
    timeStats := calculateTimeStats tz data
    funFacts := calculateFunFacts tz data
    achievements := calculateAchievements tz data }

/-! ## Concrete fixtures used by the verification theorems -/

/-- The empty dataset of §8 of the spec. -/
def emptyData : YearData :=
  { user := ⟨"u"⟩, year := 2025, createdIssues := [], resolvedIssues := [],
    comments := [], articles := [] }

/-- A raw comment by user "u" at timestamp `t`. -/
def c3comment (t : Int) : RawComment := ⟨some "hi", t, some ⟨"u"⟩⟩

/-- A raw comment by user "v" (not the target user) at timestamp `t`. -/
def c3otherComment (t : Int) : RawComment := ⟨some "hi", t, some ⟨"v"⟩⟩

/-- An issue carrying exactly the comment `c`. -/
def c3issue (c : RawComment) : IssueWithComments :=
  ⟨"1", "T-1", some "s", none, some [c]⟩

/-- The comment `c3comment t` after enrichment by `extractUserComments`. -/
def c3enriched (t : Int) : Comment :=
  ⟨some "hi", t, some ⟨"u"⟩, ⟨"1", "T-1", some "s", none⟩⟩

/-- An article reported by `login` at timestamp `t`. -/
def c3article (login : String) (t : Int) : Article :=
  ⟨some "body", t, some ⟨login⟩, none⟩

/-- Activity timestamps on the local dates 2025-03-01 … 2025-03-05 plus an
isolated 2025-03-10 (noon UTC, evaluated in timezone 0). -/
def c5acts : List Int :=
  [msOfInstant 2025 3 1 12 0 0, msOfInstant 2025 3 2 12 0 0,
   msOfInstant 2025 3 3 12 0 0, msOfInstant 2025 3 4 12 0 0,
   msOfInstant 2025 3 5 12 0 0, msOfInstant 2025 3 10 12 0 0]

/-- Project "Alpha" with short name "AL". -/
def alphaRef : ProjectRef := ⟨some "Alpha", some "AL"⟩

/-- Two created issues and one resolved issue, all under project "Alpha". -/
def c6data : YearData :=
  { user := ⟨"u"⟩, year := 2025,
    createdIssues := [⟨some "a", 0, none, some alphaRef⟩, ⟨some "b", 0, none, some alphaRef⟩],
    resolvedIssues := [⟨some "c", 0, some 5, some alphaRef⟩],
    comments := [], articles := [] }

/-- A tie dataset: one created issue in "Alpha", one resolved issue in
"Beta"; both groups have `totalActivity = 1`. -/
def c6tie : YearData :=
  { user := ⟨"u"⟩, year := 2025,
    createdIssues := [⟨some "a", 0, none, some alphaRef⟩],
    resolvedIssues := [⟨some "c", 0, some 5, some ⟨some "Beta", some "BE"⟩⟩],
    comments := [], articles := [] }

/-- A dataset with one created issue carrying no project at all. -/
def c6unknown : YearData :=
  { user := ⟨"u"⟩, year := 2025,
    createdIssues := [⟨some "a", 0, none, none⟩],
    resolvedIssues := [], comments := [], articles := [] }

/-- Noon UTC on Wednesday 2025-06-04. -/
def wedNoon : Int := msOfInstant 2025 6 4 12 0 0

/-- 75 created issues, all at the same weekday-noon instant; nothing else. -/
def d75 : YearData :=
  { user := ⟨"u"⟩, year := 2025,
    createdIssues := List.replicate 75 ⟨none, wedNoon, none, none⟩,
    resolvedIssues := [], comments := [], articles := [] }

/-- A trivially successful server: user "u", every fetch immediately empty. -/
def server0 : Server :=
  { currentUserResp := .ok ⟨"u"⟩, createdPages := [], resolvedPages := [],
    commentPages := [], articleResp := fun _ => [] }

/-- A progress callback that always throws. -/
def cbBoom : Cb := some (fun _ => .error (.cbError "boom"))

/-- The dataset `server0` yields. -/
def data0 : YearData :=
  { user := ⟨"u"⟩, year := 2025, createdIssues := [], resolvedIssues := [],
    comments := [], articles := [] }

/-- A dataset with one created issue resolved exactly one day after its
creation. -/
def d8 : YearData :=
  { user := ⟨"u"⟩, year := 2025,
    createdIssues := [⟨none, 0, some 86400000, none⟩],
    resolvedIssues := [], comments := [], articles := [] }

/-- A featureless issue for pagination fixtures. -/
def issue0 : Issue := ⟨none, 0, none, none⟩

/-- A full page of 100 issues. -/
def p100 : List Issue := List.replicate 100 issue0

/-- A short page of 37 issues. -/
def p37 : List Issue := List.replicate 37 issue0

/-- An article living in project "A". -/
def artA : Article := ⟨some "a", 0, some ⟨"u"⟩, none⟩

/-- An article living in project "C". -/
def artC : Article := ⟨some "c", 0, some ⟨"u"⟩, none⟩

/-- An article server where projects "A" and "C" answer one short page each
and project "B" fails with HTTP 403. -/
def serveABC : String → List (PageResp Article) :=
  fun s =>
    if s = "A" then [.ok [artA]]
    else if s = "B" then [.error (.apiError 403 "forbidden")]
    else [.ok [artC]]

/-- A progress callback that always succeeds. -/
def cbOk : Cb := some (fun _ => .ok ())

/-- The id ladder of the issue-creator achievements. -/
def issueCreatedIds : List String :=
  ["issue_master", "issue_expert", "issue_enthusiast", "issue_starter"]

/-- The id ladder of the bug-crusher achievements. -/
def resolvedIds : List String := ["bug_crusher", "bug_hunter", "bug_squasher"]

/-- The id ladder of the commenter achievements. -/
def commentIds : List String := ["chatterbox", "conversationalist", "contributor"]

/-- The id ladder of the documentation achievements. -/
def articleIds : List String := ["documentation_hero", "knowledge_sharer", "writer"]

/-- The id ladder of the streak achievements. -/
def streakIds : List String := ["unstoppable", "consistent", "dedicated"]

/-- The id ladder of the multi-project achievements. -/
def projectIds : List String := ["polyglot", "versatile"]

/-- The badges of an achievement list whose id belongs to one ladder. -/
def ladderFilter (ids : List String) (l : List Achievement) : List Achievement :=
  l.filter (fun a => decide (a.id ∈ ids))

/-! # Theorems -/

/-! ## Calendar lemmas -/

theorem isLeap_iff (y : Int) :
    isLeap y = true ↔ ((y % 4 = 0 ∧ y % 100 ≠ 0) ∨ y % 400 = 0) := by
  simp [isLeap]

theorem daysToYear_succ (y : Int) :
    daysToYear (y + 1) = daysToYear y + 365 + (if isLeap y then 1 else 0) := by
  by_cases h : isLeap y = true
  · rw [if_pos h, isLeap_iff] at *
    unfold daysToYear
    omega
  · rw [if_neg h]
    have h2 : ¬((y % 4 = 0 ∧ y % 100 ≠ 0) ∨ y % 400 = 0) :=
      fun hc => h ((isLeap_iff y).mpr hc)
    unfold daysToYear
    omega

/-- The instant `{year+1}-01-01T00:00:00Z` is exactly one second after
`{year}-12-31T23:59:59Z`. -/
theorem nextYearStart_eq (y : Int) :
    msOfInstant (y + 1) 1 1 0 0 0 = msOfInstant y 12 31 23 59 59 + 1000 := by
  have h := daysToYear_succ y
  by_cases hl : isLeap y = true <;>
    · simp only [hl, if_true, if_false, Bool.false_eq_true] at h
      unfold msOfInstant daysFromEpoch daysBeforeYear daysBeforeMonth
      simp only [hl]
      norm_num
      omega

/-- The year window is nonempty. -/
theorem yearStart_le_yearEnd (y : Int) :
    msOfInstant y 1 1 0 0 0 ≤ msOfInstant y 12 31 23 59 59 := by
  by_cases hl : isLeap y = true <;>
    · unfold msOfInstant daysFromEpoch daysBeforeMonth
      simp only [hl]
      norm_num
      omega

/-! ## C3: the comment/article year filter is a closed UTC interval -/

/-- C3: the comment and article year filter is a closed interval over UTC
instants: an event at exactly `{year}-01-01T00:00:00Z` is included, one at
exactly `{year}-12-31T23:59:59Z` is included, and one at exactly
`{year+1}-01-01T00:00:00Z` is excluded; a kept comment also requires
`author.login` equal to the current user's login and a kept article requires
`reporter.login` equal to it. -/
theorem spec_C3 (year : Int) :
    (extractUserComments [c3issue (c3comment (msOfInstant year 1 1 0 0 0))] "u" year
      = [c3enriched (msOfInstant year 1 1 0 0 0)]) ∧
    (extractUserComments [c3issue (c3comment (msOfInstant year 12 31 23 59 59))] "u" year
      = [c3enriched (msOfInstant year 12 31 23 59 59)]) ∧
    (extractUserComments [c3issue (c3comment (msOfInstant (year + 1) 1 1 0 0 0))] "u" year
      = []) ∧
    (extractUserComments [c3issue (c3otherComment (msOfInstant year 1 1 0 0 0))] "u" year
      = []) ∧
    (filterArticlesByUserAndYear [c3article "u" (msOfInstant year 1 1 0 0 0)] "u" year
      = [c3article "u" (msOfInstant year 1 1 0 0 0)]) ∧
    (filterArticlesByUserAndYear [c3article "u" (msOfInstant year 12 31 23 59 59)] "u" year
      = [c3article "u" (msOfInstant year 12 31 23 59 59)]) ∧
    (filterArticlesByUserAndYear [c3article "u" (msOfInstant (year + 1) 1 1 0 0 0)] "u" year
      = []) ∧
    (filterArticlesByUserAndYear [c3article "v" (msOfInstant year 1 1 0 0 0)] "u" year
      = []) := by
  have hse := yearStart_le_yearEnd year
  have hnext := nextYearStart_eq year
  have hafter : ¬(msOfInstant year 12 31 23 59 59 + 1000 ≤ msOfInstant year 12 31 23 59 59) := by
    omega
  refine ⟨?_, ?_, ?_, ?_, ?_, ?_, ?_, ?_⟩ <;>
    simp [extractUserComments, filterArticlesByUserAndYear, c3issue, c3comment,
          c3otherComment, c3enriched, c3article, hse, hnext, hafter]

/-! ## Stable-sort lemmas -/

theorem jsInsert_length (le : α → α → Bool) (x : α) (l : List α) :
    (jsInsert le x l).length = l.length + 1 := by
  induction l with
  | nil => rfl
  | cons y ys ih => by_cases h : le y x = true <;> simp [jsInsert, h, ih]

theorem jsSort_length (le : α → α → Bool) (l : List α) :
    (jsSort le l).length = l.length := by
  suffices h : ∀ acc : List α,
      (l.foldl (fun a x => jsInsert le x a) acc).length = acc.length + l.length by
    simpa using h []
  induction l with
  | nil => intro acc; simp
  | cons y ys ih =>
      intro acc
      simp only [List.foldl_cons, ih, jsInsert_length, List.length_cons]
      omega

theorem mem_jsInsert (le : α → α → Bool) (x a : α) (l : List α) :
    a ∈ jsInsert le x l ↔ a = x ∨ a ∈ l := by
  induction l with
  | nil => simp [jsInsert]
  | cons y ys ih =>
      by_cases h : le y x = true <;> simp [jsInsert, h, ih] <;> tauto

theorem jsInsert_sorted (le : α → α → Bool)
    (htot : ∀ a b, le a b = false → le b a = true)
    (htrans : ∀ a b c, le a b = true → le b c = true → le a c = true)
    (x : α) (l : List α) (h : l.Pairwise (fun a b => le a b = true)) :
    (jsInsert le x l).Pairwise (fun a b => le a b = true) := by
  induction l with
  | nil => simp [jsInsert]
  | cons y ys ih =>
      rcases List.pairwise_cons.mp h with ⟨hy, hys⟩
      by_cases hle : le y x = true
      · rw [jsInsert, if_pos hle]
        refine List.pairwise_cons.mpr ⟨?_, ih hys⟩
        intro z hz
        rcases (mem_jsInsert le x z ys).mp hz with rfl | hzys
        · exact hle
        · exact hy z hzys
      · rw [jsInsert, if_neg hle]
        have hyx : le y x = false := by
          revert hle; cases le y x <;> simp
        have hxy : le x y = true := htot y x hyx
        refine List.pairwise_cons.mpr ⟨?_, h⟩
        intro z hz
        rcases List.mem_cons.mp hz with rfl | hzys
        · exact hxy
        · exact htrans x y z hxy (hy z hzys)

theorem jsSort_sorted (le : α → α → Bool)
    (htot : ∀ a b, le a b = false → le b a = true)
    (htrans : ∀ a b c, le a b = true → le b c = true → le a c = true)
    (l : List α) :
    (jsSort le l).Pairwise (fun a b => le a b = true) := by
  suffices h : ∀ acc : List α, acc.Pairwise (fun a b => le a b = true) →
      (l.foldl (fun a x => jsInsert le x a) acc).Pairwise (fun a b => le a b = true) by
    exact h [] (by simp)
  induction l with
  | nil => intro acc hacc; simpa using hacc
  | cons y ys ih =>
      intro acc hacc
      exact ih (jsInsert le y acc) (jsInsert_sorted le htot htrans y acc hacc)

/-! ## Streak lemmas -/

theorem streakScan_le (rest : List Ymd) :
    ∀ (best : Nat × Ymd × Ymd) (cur : Nat) (curStart prev : Ymd),
      best.1 ≤ (streakScan best cur curStart prev rest).1 := by
  induction rest with
  | nil => intro best cur curStart prev; simp [streakScan]
  | cons d ds ih =>
      intro best cur curStart prev
      simp only [streakScan]
      by_cases h1 : ymdToDays d - ymdToDays prev = 1
      · simp only [if_pos h1]
        by_cases h2 : best.1 < cur + 1
        · simp only [if_pos h2]
          exact le_trans (Nat.le_of_lt h2) (ih (cur + 1, curStart, d) (cur + 1) curStart d)
        · simp only [if_neg h2]
          exact ih best (cur + 1) curStart d
      · simp only [if_neg h1]
        exact ih best 1 d d

theorem jsSetDedup_cons (x : Ymd) (xs : List Ymd) :
    jsSetDedup [] (x :: xs) = x :: jsSetDedup [x] xs := by
  simp [jsSetDedup]

/-! ## C5: longest streak -/

/-- C5: the longest streak reduces every contributing event to its local
calendar date, deduplicates, sorts ascending, and scans for the longest run
of consecutive days: zero events yield `{days: 0, startDate: null, endDate:
null}`, any events yield at least one day, and activity on 2025-03-01 through
2025-03-05 plus an isolated 2025-03-10 yields 5 days from 2025-03-01 to
2025-03-05. -/
theorem spec_C5 :
    (∀ tz : Int, calculateLongestStreak tz [] = ⟨0, none, none⟩) ∧
    (∀ (tz : Int) (acts : List Int), acts ≠ [] →
      1 ≤ (calculateLongestStreak tz acts).days) ∧
    (calculateLongestStreak 0 c5acts =
      ⟨5, some ⟨2025, 3, 1⟩, some ⟨2025, 3, 5⟩⟩) := by
  refine ⟨?_, ?_, by decide⟩
  · intro tz; rfl
  · intro tz acts hne
    have hlen : acts.length ≠ 0 := by
      cases acts with
      | nil => exact absurd rfl hne
      | cons a as => simp
    rw [calculateLongestStreak, if_neg hlen]
    have hsettle : jsSetDedup [] (acts.map (localYmd tz)) ≠ [] := by
      cases acts with
      | nil => exact absurd rfl hne
      | cons a as => rw [List.map_cons, jsSetDedup_cons]; simp
    have hsort : (jsSort ymdLe (jsSetDedup [] (acts.map (localYmd tz)))).length ≠ 0 := by
      rw [jsSort_length]
      intro h0
      exact hsettle (List.eq_nil_of_length_eq_zero h0)
    cases hsd : jsSort ymdLe (jsSetDedup [] (acts.map (localYmd tz))) with
    | nil => rw [hsd] at hsort; simp at hsort
    | cons d0 rest =>
        simp only [hsd]
        exact streakScan_le rest (1, d0, d0) 1 d0 d0

/-- C5 witness: the nonempty-dataset conjunct applied at a concrete input. -/
theorem spec_C5_witness : 1 ≤ (calculateLongestStreak 0 [0]).days :=
  spec_C5.2.1 0 [0] (by simp)

/-! ## C6: project grouping -/

/-- C6: project stats group created issues, resolved issues and comments by
project display name ("Unknown" when absent), `totalActivity` is the sum of
the three counters, the groups are sorted descending by `totalActivity` (ties
keep discovery order), and `topProject` is the head of that list (or none
when there are no groups); the Alpha example yields one group with
`issuesCreated = 2`, `issuesResolved = 1`, `comments = 0`,
`totalActivity = 3`. -/
theorem spec_C6 :
    (∀ data : YearData, (calculateProjectStats data).topProject =
      (calculateProjectStats data).projects.head?) ∧
    (∀ data : YearData, (calculateProjectStats data).projects.Pairwise
      (fun a b => b.totalActivity ≤ a.totalActivity)) ∧
    ((calculateProjectStats c6data).projects =
      [⟨"Alpha", "AL", 2, 1, 0, 3⟩]) ∧
    ((calculateProjectStats c6data).topProject = some ⟨"Alpha", "AL", 2, 1, 0, 3⟩) ∧
    ((calculateProjectStats c6tie).projects.map (fun p => p.name) = ["Alpha", "Beta"]) ∧
    ((calculateProjectStats c6unknown).projects.map (fun p => p.name) = ["Unknown"]) := by
  refine ⟨fun data => rfl, ?_, by decide, by decide, by decide, by decide⟩
  intro data
  have h := jsSort_sorted (fun a b : ProjTotal => decide (b.totalActivity ≤ a.totalActivity))
    (fun a b hab => by
      simp only [decide_eq_false_iff_not, decide_eq_true_eq, not_le] at hab ⊢
      omega)
    (fun a b c hab hbc => by
      simp only [decide_eq_true_eq] at hab hbc ⊢
      omega)
  exact List.Pairwise.imp (fun hab => by
    simpa only [decide_eq_true_eq] using hab) (h _)

/-! ## C8: average resolution time -/

/-- C8: the average resolution time is computed only over created issues with
a `resolvedAt`, as the mean of `resolvedAt - createdAt` in milliseconds, with
the day figure that mean divided by one day and rounded; with no qualifying
issue it is exactly 0 (never NaN or an error — the division is guarded, and
the fields are always defined). -/
theorem spec_C8 :
    (∀ data : YearData,
      (calculateIssueStats data).avgResolutionTimeMs.isSome ∧
      (calculateIssueStats data).avgResolutionTimeDays.isSome) ∧
    (∀ data : YearData,
      data.createdIssues.filter (fun i => i.resolved.isSome) = [] →
      (calculateIssueStats data).avgResolutionTimeMs = some 0 ∧
      (calculateIssueStats data).avgResolutionTimeDays = some 0) ∧
    (∀ data : YearData,
      data.createdIssues.filter (fun i => i.resolved.isSome) ≠ [] →
      (calculateIssueStats data).avgResolutionTimeMs =
        some ((resolutionSum (data.createdIssues.filter (fun i => i.resolved.isSome)) : ℚ) /
          ((data.createdIssues.filter (fun i => i.resolved.isSome)).length : ℚ)) ∧
      (calculateIssueStats data).avgResolutionTimeDays =
        some (round (((resolutionSum (data.createdIssues.filter (fun i => i.resolved.isSome)) : ℚ) /
          ((data.createdIssues.filter (fun i => i.resolved.isSome)).length : ℚ)) /
          (1000 * 60 * 60 * 24)))) := by
  have key : ∀ data : YearData,
      (calculateIssueStats data).avgResolutionTimeMs =
        (if (data.createdIssues.filter (fun i => i.resolved.isSome)).length > 0 then
          jsDiv (resolutionSum (data.createdIssues.filter (fun i => i.resolved.isSome)) : ℚ)
            ((data.createdIssues.filter (fun i => i.resolved.isSome)).length : ℚ)
        else some 0) ∧
      (calculateIssueStats data).avgResolutionTimeDays =
        ((if (data.createdIssues.filter (fun i => i.resolved.isSome)).length > 0 then
          jsDiv (resolutionSum (data.createdIssues.filter (fun i => i.resolved.isSome)) : ℚ)
            ((data.createdIssues.filter (fun i => i.resolved.isSome)).length : ℚ)
        else some 0).map (fun q => round (q / (1000 * 60 * 60 * 24)))) :=
    fun data => ⟨rfl, rfl⟩
  refine ⟨?_, ?_, ?_⟩
  · intro data
    rcases key data with ⟨h1, h2⟩
    by_cases h : (data.createdIssues.filter (fun i => i.resolved.isSome)).length > 0
    · have hne : ((data.createdIssues.filter (fun i => i.resolved.isSome)).length : ℚ) ≠ 0 := by
        exact_mod_cast Nat.pos_iff_ne_zero.mp h
      rw [h1, h2, if_pos h, jsDiv, if_neg hne]
      simp
    · rw [h1, h2, if_neg h]
      simp
  · intro data hnil
    rcases key data with ⟨h1, h2⟩
    rw [h1, h2, if_neg (by rw [hnil]; simp)]
    constructor
    · rfl
    · simp
  · intro data hne
    rcases key data with ⟨h1, h2⟩
    have hpos : (data.createdIssues.filter (fun i => i.resolved.isSome)).length > 0 := by
      cases hl : data.createdIssues.filter (fun i => i.resolved.isSome) with
      | nil => exact absurd hl hne
      | cons a as => simp [hl]
    have hq : ((data.createdIssues.filter (fun i => i.resolved.isSome)).length : ℚ) ≠ 0 := by
      exact_mod_cast Nat.pos_iff_ne_zero.mp hpos
    rw [h1, h2, if_pos hpos, jsDiv, if_neg hq]
    constructor
    · rfl
    · simp

/-- C8 witness: the nonempty case applied to one issue resolved one day after
creation (average one day, rounded to one). -/
theorem spec_C8_witness :
    (calculateIssueStats d8).avgResolutionTimeMs =
      some ((resolutionSum (d8.createdIssues.filter (fun i => i.resolved.isSome)) : ℚ) /
        ((d8.createdIssues.filter (fun i => i.resolved.isSome)).length : ℚ)) :=
  (spec_C8.2.2 d8 (by decide)).1

/-! ## C4: pagination -/

/-- C4: each paginated fetch requests successive pages (of fixed size 100,
offsets 0, 100, 200, … — the position in the response list), stops at the
first empty or short page, and returns the concatenation of all pages; for a
page source yielding sizes [100, 100, 37] exactly 3 requests are issued and
exactly 237 items are returned. -/
theorem spec_C4 :
    (∀ (p1 p2 p3 : List Issue) (rest : List (PageResp Issue)),
      p1.length = 100 → p2.length = 100 → p3.length = 37 →
      fetchPages none "created issues..." 0 (.ok p1 :: .ok p2 :: .ok p3 :: rest)
        = (.ok (p1 ++ p2 ++ p3), 3) ∧ (p1 ++ p2 ++ p3).length = 237) ∧
    (∀ rest : List (PageResp Issue),
      fetchPages none "created issues..." 0 (.ok ([] : List Issue) :: rest)
        = (.ok [], 1)) ∧
    (∀ (p : List Issue) (rest : List (PageResp Issue)) (acc : Nat),
      p.length ≠ 0 → p.length < 100 →
      fetchPages none "created issues..." acc (.ok p :: rest) = (.ok p, 1)) := by
  refine ⟨?_, fun rest => rfl, ?_⟩
  · intro p1 p2 p3 rest h1 h2 h3
    constructor
    · simp [fetchPages, callP, h1, h2, h3, List.append_assoc]
    · simp [List.length_append, h1, h2, h3]
  · intro p rest acc h0 hlt
    simp [fetchPages, callP, h0, hlt]

/-- C4 witness: the [100, 100, 37] page source evaluated concretely. -/
theorem spec_C4_witness :
    fetchPages none "created issues..." 0 [.ok p100, .ok p100, .ok p37]
      = (.ok (p100 ++ p100 ++ p37), 3) ∧ (p100 ++ p100 ++ p37).length = 237 :=
  spec_C4.1 p100 p100 p37 [] (by decide) (by decide) (by decide)

/-! ## C9: per-project article failure isolation -/

/-- C9: `getArticles` isolates per-project failures: when fetching project
"B" fails, the articles of projects "A" and "C" are still all present (in
order) in the returned collection, and the failing project's requests are
still counted; an empty project list returns an empty collection with no
request issued. -/
theorem spec_C9 :
    (∀ (cb : Cb) (serve : String → List (PageResp Article)),
      getArticles cb serve [] = ([], 0)) ∧
    (∀ (cb : Cb) (serve : String → List (PageResp Article))
      (la lc : List Article) (na nb nc : Nat) (eb : Err),
      fetchArticlePages (serve "A") = (.ok la, na) →
      fetchArticlePages (serve "B") = (.error eb, nb) →
      fetchArticlePages (serve "C") = (.ok lc, nc) →
      (getArticles cb serve ["A", "B", "C"]).1 = la ++ lc ∧
      (getArticles cb serve ["A", "B", "C"]).2 = na + nb + nc) := by
  refine ⟨fun cb serve => rfl, ?_⟩
  intro cb serve la lc na nb nc eb hA hB hC
  constructor
  · simp [getArticles, hA, hB, hC]
  · simp [getArticles, hA, hB, hC]

/-- C9 witness: projects "A" and "C" answer one article each, "B" fails with
HTTP 403; both articles survive. -/
theorem spec_C9_witness :
    (getArticles none serveABC ["A", "B", "C"]).1 = [artA] ++ [artC] :=
  (spec_C9.2 none serveABC [artA] [artC] 1 1 1 (.apiError 403 "forbidden")
    rfl rfl rfl).1

/-! ## C2: error classification of getCurrentUser -/

/-- C2 counterexample: the claim requires HTTP 401 to fail with a dedicated
`AuthError` kind distinct from the `ProtocolError` kind of other non-2xx
statuses, but the client throws the same generic API-error kind for 401 as
for 500 (`errCtor` extracts the error constructor: same tag = same kind). -/
theorem spec_C2_counterexample :
    getCurrentUser (.response 401 "unauthorized") = .error (.apiError 401 "unauthorized") ∧
    getCurrentUser (.response 500 "oops") = .error (.apiError 500 "oops") ∧
    errCtor (.apiError 401 "unauthorized") = errCtor (.apiError 500 "oops") :=
  ⟨rfl, rfl, rfl⟩

/-- C2 (amended): `getCurrentUser` issues a single request; a network failure
propagates the underlying fetch error unchanged; every non-2xx status — 401
and 403 included — fails with the one generic API error carrying the status
code and the raw body (all such failures are the same error kind; the source
has no distinct AuthError/ProtocolError classification); a 2xx response
returns the body. -/
theorem spec_C2_amended :
    (∀ m : String, getCurrentUser (.networkFailure m) = .error (.fetchError m)) ∧
    (∀ (st : Nat) (body : String), ¬(200 ≤ st ∧ st ≤ 299) →
      getCurrentUser (.response st body) = .error (.apiError st body)) ∧
    (∀ (st : Nat) (body : String), 200 ≤ st ∧ st ≤ 299 →
      getCurrentUser (.response st body) = .ok body) ∧
    (∀ (st st' : Nat) (b b' : String) (e e' : Err),
      getCurrentUser (.response st b) = .error e →
      getCurrentUser (.response st' b') = .error e' →
      errCtor e = errCtor e') := by
  refine ⟨fun m => rfl, ?_, ?_, ?_⟩
  · intro st body h
    rw [getCurrentUser, request, if_neg h]
  · intro st body h
    rw [getCurrentUser, request, if_pos h]
  · intro st st' b b' e e' he he'
    rw [getCurrentUser, request] at he he'
    by_cases h : 200 ≤ st ∧ st ≤ 299
    · rw [if_pos h] at he
      exact absurd he (by simp)
    · rw [if_neg h] at he
      by_cases h' : 200 ≤ st' ∧ st' ≤ 299
      · rw [if_pos h'] at he'
        exact absurd he' (by simp)
      · rw [if_neg h'] at he'
        injection he with he1
        injection he' with he2
        rw [← he1, ← he2]
        rfl

/-- C2 witness: a generic 404 failure carries status and body. -/
theorem spec_C2_amended_witness :
    getCurrentUser (.response 404 "missing") = .error (.apiError 404 "missing") :=
  spec_C2_amended.2.1 404 "missing" (by decide)

/-! ## C10: the progress callback -/

/-- A never-throwing callback is indistinguishable from an absent one inside
the issue pagination loop. -/
theorem fetchPages_cb_trivial {α : Type} (f : String → Except Err Unit)
    (hf : ∀ s, f s = .ok ()) (label : String) :
    ∀ (pages : List (PageResp α)) (acc : Nat),
      fetchPages (some f) label acc pages = fetchPages none label acc pages := by
  intro pages
  induction pages with
  | nil => intro acc; rfl
  | cons r rs ih =>
      intro acc
      cases r with
      | error e => rfl
      | ok p =>
          rw [fetchPages, fetchPages]
          simp only [callP, hf]
          by_cases hlt : p.length < 100
          · simp [hlt]
          · simp [hlt, ih]

/-- The article loop's result never depends on the callback: the progress
call happens after the push, inside the per-project `try`. -/
theorem getArticles_cb_trivial (cb : Cb) (serve : String → List (PageResp Article))
    (projs : List String) : getArticles cb serve projs = getArticles none serve projs := rfl

/-- C10 counterexample: the claim says a throwing `onProgress` does not
change the result, but with the same trivially successful server the absent
callback yields the dataset while the throwing callback fails the whole
collection with the callback's exception. -/
theorem spec_C10_counterexample :
    collectYearData server0 2025 [] none = .ok data0 ∧
    collectYearData server0 2025 [] cbBoom = .error (.cbError "boom") :=
  ⟨rfl, rfl⟩

/-- C10 (amended): the progress callback is advisory as long as it does not
throw: for every fetch outcome, `collectYearData` produces the same result
whether `onProgress` is absent or present and never-throwing.  (A throwing
callback, by contrast, propagates outside the article fetch and fails the
collection — see the counterexample.) -/
theorem spec_C10_amended (server : Server) (year : Int) (projs : List String)
    (f : String → Except Err Unit) (hf : ∀ s, f s = .ok ()) :
    collectYearData server year projs (some f) =
      collectYearData server year projs none := by
  have hI := fetchPages_cb_trivial (α := Issue) f hf
  have hC := fetchPages_cb_trivial (α := IssueWithComments) f hf
  rw [collectYearData, collectYearData]
  simp only [callP, hf, hI, hC, getArticles_cb_trivial]

/-- C10 witness: the amended theorem applied to the trivially successful
server and a concrete non-throwing callback. -/
theorem spec_C10_amended_witness :
    collectYearData server0 2025 [] cbOk = collectYearData server0 2025 [] none :=
  spec_C10_amended server0 2025 [] (fun _ => .ok ()) (fun _ => rfl)

/-! ## C7: achievement ladders -/

theorem ladderFilter_append (ids : List String) (l1 l2 : List Achievement) :
    ladderFilter ids (l1 ++ l2) = ladderFilter ids l1 ++ ladderFilter ids l2 := by
  simp [ladderFilter]

theorem ladderFilter_nil_of_ids (ids S : List String) (l : List Achievement)
    (hsub : ∀ a ∈ l, a.id ∈ S) (hdisj : ∀ s ∈ S, s ∉ ids) :
    ladderFilter ids l = [] := by
  rw [ladderFilter, List.filter_eq_nil_iff]
  intro a ha
  simp only [decide_eq_true_eq]
  exact hdisj a.id (hsub a ha)

theorem issueCreatedBadges_ids (n : Nat) :
    ∀ a ∈ issueCreatedBadges n, a.id ∈ issueCreatedIds := by
  intro a ha
  unfold issueCreatedBadges at ha
  repeat' split at ha
  all_goals simp_all [issueCreatedIds]

theorem resolvedBadges_ids (n : Nat) :
    ∀ a ∈ resolvedBadges n, a.id ∈ resolvedIds := by
  intro a ha
  unfold resolvedBadges at ha
  repeat' split at ha
  all_goals simp_all [resolvedIds]

theorem commentBadges_ids (n : Nat) :
    ∀ a ∈ commentBadges n, a.id ∈ commentIds := by
  intro a ha
  unfold commentBadges at ha
  repeat' split at ha
  all_goals simp_all [commentIds]

theorem articleBadges_ids (n : Nat) :
    ∀ a ∈ articleBadges n, a.id ∈ articleIds := by
  intro a ha
  unfold articleBadges at ha
  repeat' split at ha
  all_goals simp_all [articleIds]

theorem streakBadges_ids (n : Nat) :
    ∀ a ∈ streakBadges n, a.id ∈ streakIds := by
  intro a ha
  unfold streakBadges at ha
  repeat' split at ha
  all_goals simp_all [streakIds]

theorem projectBadges_ids (n : Nat) :
    ∀ a ∈ projectBadges n, a.id ∈ projectIds := by
  intro a ha
  unfold projectBadges at ha
  repeat' split at ha
  all_goals simp_all [projectIds]

theorem weekendFlag_ids (w : Nat) :
    ∀ a ∈ weekendFlag w, a.id ∈ ["weekend_warrior"] := by
  intro a ha
  unfold weekendFlag at ha
  split at ha
  all_goals simp_all

theorem nightFlag_ids (w : Nat) :
    ∀ a ∈ nightFlag w, a.id ∈ ["night_owl"] := by
  intro a ha
  unfold nightFlag at ha
  split at ha
  all_goals simp_all

theorem morningFlag_ids (w : Nat) :
    ∀ a ∈ morningFlag w, a.id ∈ ["early_bird"] := by
  intro a ha
  unfold morningFlag at ha
  split at ha
  all_goals simp_all

theorem issueCreatedBadges_len (n : Nat) : (issueCreatedBadges n).length ≤ 1 := by
  unfold issueCreatedBadges
  repeat' split
  all_goals simp

theorem resolvedBadges_len (n : Nat) : (resolvedBadges n).length ≤ 1 := by
  unfold resolvedBadges
  repeat' split
  all_goals simp

theorem commentBadges_len (n : Nat) : (commentBadges n).length ≤ 1 := by
  unfold commentBadges
  repeat' split
  all_goals simp

theorem articleBadges_len (n : Nat) : (articleBadges n).length ≤ 1 := by
  unfold articleBadges
  repeat' split
  all_goals simp

theorem streakBadges_len (n : Nat) : (streakBadges n).length ≤ 1 := by
  unfold streakBadges
  repeat' split
  all_goals simp

theorem projectBadges_len (n : Nat) : (projectBadges n).length ≤ 1 := by
  unfold projectBadges
  repeat' split
  all_goals simp

theorem ladderFilter_self_weekend (w : Nat) :
    ladderFilter ["weekend_warrior"] (weekendFlag w) = weekendFlag w := by
  unfold weekendFlag
  split
  all_goals rfl

theorem ladderFilter_self_night (w : Nat) :
    ladderFilter ["night_owl"] (nightFlag w) = nightFlag w := by
  unfold nightFlag
  split
  all_goals rfl

theorem ladderFilter_self_morning (w : Nat) :
    ladderFilter ["early_bird"] (morningFlag w) = morningFlag w := by
  unfold morningFlag
  split
  all_goals rfl

theorem weekendFlag_ne_nil (w : Nat) : weekendFlag w ≠ [] ↔ 20 < w := by
  unfold weekendFlag
  split
  all_goals simp_all

theorem nightFlag_ne_nil (w : Nat) : nightFlag w ≠ [] ↔ 20 < w := by
  unfold nightFlag
  split
  all_goals simp_all

theorem morningFlag_ne_nil (w : Nat) : morningFlag w ≠ [] ↔ 20 < w := by
  unfold morningFlag
  split
  all_goals simp_all

theorem exists_id_iff_ladderFilter (l : List Achievement) (i : String) :
    (∃ a ∈ l, a.id = i) ↔ ladderFilter [i] l ≠ [] := by
  rw [ladderFilter, Ne, List.filter_eq_nil_iff]
  simp

theorem ladderFilter_len_le (ids : List String) (l : List Achievement) :
    (ladderFilter ids l).length ≤ l.length :=
  List.length_filter_le _ _

/-- C7: for every dataset the achievements list contains at most one badge
from each threshold ladder (issues-created, issues-resolved, comments,
articles, streak, distinct projects) — the single highest tier met — while
the three flag achievements (weekend, night-owl, early-bird) fire exactly
when their own activity sums exceed 20, independently of the ladders and of
each other; 75 created issues yield exactly the 50+ tier badge of the
issue-created ladder and no other badge. -/
theorem spec_C7 :
    (∀ (tz : Int) (data : YearData),
      (ladderFilter issueCreatedIds (calculateAchievements tz data)).length ≤ 1 ∧
      (ladderFilter resolvedIds (calculateAchievements tz data)).length ≤ 1 ∧
      (ladderFilter commentIds (calculateAchievements tz data)).length ≤ 1 ∧
      (ladderFilter articleIds (calculateAchievements tz data)).length ≤ 1 ∧
      (ladderFilter streakIds (calculateAchievements tz data)).length ≤ 1 ∧
      (ladderFilter projectIds (calculateAchievements tz data)).length ≤ 1) ∧
    (∀ (tz : Int) (data : YearData),
      ((∃ a ∈ calculateAchievements tz data, a.id = "weekend_warrior") ↔
        20 < weekendActivity (calculateTimeStats tz data)) ∧
      ((∃ a ∈ calculateAchievements tz data, a.id = "night_owl") ↔
        20 < nightActivity (calculateTimeStats tz data)) ∧
      ((∃ a ∈ calculateAchievements tz data, a.id = "early_bird") ↔
        20 < morningActivity (calculateTimeStats tz data))) ∧
    (ladderFilter issueCreatedIds (calculateAchievements 0 d75) =
      [⟨"issue_expert", "Issue Expert", "Created 50+ issues", "🥇"⟩]) ∧
    ((calculateAchievements 0 d75).map (fun a => a.id) = ["issue_expert"]) := by
  refine ⟨?_, ?_, by decide, by decide⟩
  · intro tz data
    have hdec : calculateAchievements tz data =
        issueCreatedBadges (calculateSummary data).totalIssuesCreated ++
        resolvedBadges (calculateSummary data).totalIssuesResolved ++
        commentBadges (calculateSummary data).totalComments ++
        articleBadges (calculateSummary data).totalArticles ++
        streakBadges (calculateTimeStats tz data).longestStreak.days ++
        projectBadges (calculateProjectStats data).totalProjects ++
        weekendFlag (weekendActivity (calculateTimeStats tz data)) ++
        nightFlag (nightActivity (calculateTimeStats tz data)) ++
        morningFlag (morningActivity (calculateTimeStats tz data)) := rfl
    refine ⟨?_, ?_, ?_, ?_, ?_, ?_⟩
    · rw [hdec]
      simp only [ladderFilter_append, List.length_append]
      have z1 : ladderFilter issueCreatedIds (resolvedBadges (calculateSummary data).totalIssuesResolved) = [] :=
        ladderFilter_nil_of_ids issueCreatedIds resolvedIds _ (resolvedBadges_ids _) (by decide)
      have z2 : ladderFilter issueCreatedIds (commentBadges (calculateSummary data).totalComments) = [] :=
        ladderFilter_nil_of_ids issueCreatedIds commentIds _ (commentBadges_ids _) (by decide)
      have z3 : ladderFilter issueCreatedIds (articleBadges (calculateSummary data).totalArticles) = [] :=
        ladderFilter_nil_of_ids issueCreatedIds articleIds _ (articleBadges_ids _) (by decide)
      have z4 : ladderFilter issueCreatedIds (streakBadges (calculateTimeStats tz data).longestStreak.days) = [] :=
        ladderFilter_nil_of_ids issueCreatedIds streakIds _ (streakBadges_ids _) (by decide)
      have z5 : ladderFilter issueCreatedIds (projectBadges (calculateProjectStats data).totalProjects) = [] :=
        ladderFilter_nil_of_ids issueCreatedIds projectIds _ (projectBadges_ids _) (by decide)
      have z6 : ladderFilter issueCreatedIds (weekendFlag (weekendActivity (calculateTimeStats tz data))) = [] :=
        ladderFilter_nil_of_ids issueCreatedIds ["weekend_warrior"] _ (weekendFlag_ids _) (by decide)
      have z7 : ladderFilter issueCreatedIds (nightFlag (nightActivity (calculateTimeStats tz data))) = [] :=
        ladderFilter_nil_of_ids issueCreatedIds ["night_owl"] _ (nightFlag_ids _) (by decide)
      have z8 : ladderFilter issueCreatedIds (morningFlag (morningActivity (calculateTimeStats tz data))) = [] :=
        ladderFilter_nil_of_ids issueCreatedIds ["early_bird"] _ (morningFlag_ids _) (by decide)
      have hb := le_trans (ladderFilter_len_le issueCreatedIds (issueCreatedBadges (calculateSummary data).totalIssuesCreated))
        (issueCreatedBadges_len (calculateSummary data).totalIssuesCreated)
      rw [z1, z2, z3, z4, z5, z6, z7, z8]
      simp only [List.length_nil]
      omega
    · rw [hdec]
      simp only [ladderFilter_append, List.length_append]
      have z0 : ladderFilter resolvedIds (issueCreatedBadges (calculateSummary data).totalIssuesCreated) = [] :=
        ladderFilter_nil_of_ids resolvedIds issueCreatedIds _ (issueCreatedBadges_ids _) (by decide)
      have z2 : ladderFilter resolvedIds (commentBadges (calculateSummary data).totalComments) = [] :=
        ladderFilter_nil_of_ids resolvedIds commentIds _ (commentBadges_ids _) (by decide)
      have z3 : ladderFilter resolvedIds (articleBadges (calculateSummary data).totalArticles) = [] :=
        ladderFilter_nil_of_ids resolvedIds articleIds _ (articleBadges_ids _) (by decide)
      have z4 : ladderFilter resolvedIds (streakBadges (calculateTimeStats tz data).longestStreak.days) = [] :=
        ladderFilter_nil_of_ids resolvedIds streakIds _ (streakBadges_ids _) (by decide)
      have z5 : ladderFilter resolvedIds (projectBadges (calculateProjectStats data).totalProjects) = [] :=
        ladderFilter_nil_of_ids resolvedIds projectIds _ (projectBadges_ids _) (by decide)
      have z6 : ladderFilter resolvedIds (weekendFlag (weekendActivity (calculateTimeStats tz data))) = [] :=
        ladderFilter_nil_of_ids resolvedIds ["weekend_warrior"] _ (weekendFlag_ids _) (by decide)
      have z7 : ladderFilter resolvedIds (nightFlag (nightActivity (calculateTimeStats tz data))) = [] :=
        ladderFilter_nil_of_ids resolvedIds ["night_owl"] _ (nightFlag_ids _) (by decide)
      have z8 : ladderFilter resolvedIds (morningFlag (morningActivity (calculateTimeStats tz data))) = [] :=
        ladderFilter_nil_of_ids resolvedIds ["early_bird"] _ (morningFlag_ids _) (by decide)
      have hb := le_trans (ladderFilter_len_le resolvedIds (resolvedBadges (calculateSummary data).totalIssuesResolved))
        (resolvedBadges_len (calculateSummary data).totalIssuesResolved)
      rw [z0, z2, z3, z4, z5, z6, z7, z8]
      simp only [List.length_nil]
      omega
    · rw [hdec]
      simp only [ladderFilter_append, List.length_append]
      have z0 : ladderFilter commentIds (issueCreatedBadges (calculateSummary data).totalIssuesCreated) = [] :=
        ladderFilter_nil_of_ids commentIds issueCreatedIds _ (issueCreatedBadges_ids _) (by decide)
      have z1 : ladderFilter commentIds (resolvedBadges (calculateSummary data).totalIssuesResolved) = [] :=
        ladderFilter_nil_of_ids commentIds resolvedIds _ (resolvedBadges_ids _) (by decide)
      have z3 : ladderFilter commentIds (articleBadges (calculateSummary data).totalArticles) = [] :=
        ladderFilter_nil_of_ids commentIds articleIds _ (articleBadges_ids _) (by decide)
      have z4 : ladderFilter commentIds (streakBadges (calculateTimeStats tz data).longestStreak.days) = [] :=
        ladderFilter_nil_of_ids commentIds streakIds _ (streakBadges_ids _) (by decide)
      have z5 : ladderFilter commentIds (projectBadges (calculateProjectStats data).totalProjects) = [] :=
        ladderFilter_nil_of_ids commentIds projectIds _ (projectBadges_ids _) (by decide)
      have z6 : ladderFilter commentIds (weekendFlag (weekendActivity (calculateTimeStats tz data))) = [] :=
        ladderFilter_nil_of_ids commentIds ["weekend_warrior"] _ (weekendFlag_ids _) (by decide)
      have z7 : ladderFilter commentIds (nightFlag (nightActivity (calculateTimeStats tz data))) = [] :=
        ladderFilter_nil_of_ids commentIds ["night_owl"] _ (nightFlag_ids _) (by decide)
      have z8 : ladderFilter commentIds (morningFlag (morningActivity (calculateTimeStats tz data))) = [] :=
        ladderFilter_nil_of_ids commentIds ["early_bird"] _ (morningFlag_ids _) (by decide)
      have hb := le_trans (ladderFilter_len_le commentIds (commentBadges (calculateSummary data).totalComments))
        (commentBadges_len (calculateSummary data).totalComments)
      rw [z0, z1, z3, z4, z5, z6, z7, z8]
      simp only [List.length_nil]
      omega
    · rw [hdec]
      simp only [ladderFilter_append, List.length_append]
      have z0 : ladderFilter articleIds (issueCreatedBadges (calculateSummary data).totalIssuesCreated) = [] :=
        ladderFilter_nil_of_ids articleIds issueCreatedIds _ (issueCreatedBadges_ids _) (by decide)
      have z1 : ladderFilter articleIds (resolvedBadges (calculateSummary data).totalIssuesResolved) = [] :=
        ladderFilter_nil_of_ids articleIds resolvedIds _ (resolvedBadges_ids _) (by decide)
      have z2 : ladderFilter articleIds (commentBadges (calculateSummary data).totalComments) = [] :=
        ladderFilter_nil_of_ids articleIds commentIds _ (commentBadges_ids _) (by decide)
      have z4 : ladderFilter articleIds (streakBadges (calculateTimeStats tz data).longestStreak.days) = [] :=
        ladderFilter_nil_of_ids articleIds streakIds _ (streakBadges_ids _) (by decide)
      have z5 : ladderFilter articleIds (projectBadges (calculateProjectStats data).totalProjects) = [] :=
        ladderFilter_nil_of_ids articleIds projectIds _ (projectBadges_ids _) (by decide)
      have z6 : ladderFilter articleIds (weekendFlag (weekendActivity (calculateTimeStats tz data))) = [] :=
        ladderFilter_nil_of_ids articleIds ["weekend_warrior"] _ (weekendFlag_ids _) (by decide)
      have z7 : ladderFilter articleIds (nightFlag (nightActivity (calculateTimeStats tz data))) = [] :=
        ladderFilter_nil_of_ids articleIds ["night_owl"] _ (nightFlag_ids _) (by decide)
      have z8 : ladderFilter articleIds (morningFlag (morningActivity (calculateTimeStats tz data))) = [] :=
        ladderFilter_nil_of_ids articleIds ["early_bird"] _ (morningFlag_ids _) (by decide)
      have hb := le_trans (ladderFilter_len_le articleIds (articleBadges (calculateSummary data).totalArticles))
        (articleBadges_len (calculateSummary data).totalArticles)
      rw [z0, z1, z2, z4, z5, z6, z7, z8]
      simp only [List.length_nil]
      omega
    · rw [hdec]
      simp only [ladderFilter_append, List.length_append]
      have z0 : ladderFilter streakIds (issueCreatedBadges (calculateSummary data).totalIssuesCreated) = [] :=
        ladderFilter_nil_of_ids streakIds issueCreatedIds _ (issueCreatedBadges_ids _) (by decide)
      have z1 : ladderFilter streakIds (resolvedBadges (calculateSummary data).totalIssuesResolved) = [] :=
        ladderFilter_nil_of_ids streakIds resolvedIds _ (resolvedBadges_ids _) (by decide)
      have z2 : ladderFilter streakIds (commentBadges (calculateSummary data).totalComments) = [] :=
        ladderFilter_nil_of_ids streakIds commentIds _ (commentBadges_ids _) (by decide)
      have z3 : ladderFilter streakIds (articleBadges (calculateSummary data).totalArticles) = [] :=
        ladderFilter_nil_of_ids streakIds articleIds _ (articleBadges_ids _) (by decide)
      have z5 : ladderFilter streakIds (projectBadges (calculateProjectStats data).totalProjects) = [] :=
        ladderFilter_nil_of_ids streakIds projectIds _ (projectBadges_ids _) (by decide)
      have z6 : ladderFilter streakIds (weekendFlag (weekendActivity (calculateTimeStats tz data))) = [] :=
        ladderFilter_nil_of_ids streakIds ["weekend_warrior"] _ (weekendFlag_ids _) (by decide)
      have z7 : ladderFilter streakIds (nightFlag (nightActivity (calculateTimeStats tz data))) = [] :=
        ladderFilter_nil_of_ids streakIds ["night_owl"] _ (nightFlag_ids _) (by decide)
      have z8 : ladderFilter streakIds (morningFlag (morningActivity (calculateTimeStats tz data))) = [] :=
        ladderFilter_nil_of_ids streakIds ["early_bird"] _ (morningFlag_ids _) (by decide)
      have hb := le_trans (ladderFilter_len_le streakIds (streakBadges (calculateTimeStats tz data).longestStreak.days))
        (streakBadges_len (calculateTimeStats tz data).longestStreak.days)
      rw [z0, z1, z2, z3, z5, z6, z7, z8]
      simp only [List.length_nil]
      omega
    · rw [hdec]
      simp only [ladderFilter_append, List.length_append]
      have z0 : ladderFilter projectIds (issueCreatedBadges (calculateSummary data).totalIssuesCreated) = [] :=
        ladderFilter_nil_of_ids projectIds issueCreatedIds _ (issueCreatedBadges_ids _) (by decide)
      have z1 : ladderFilter projectIds (resolvedBadges (calculateSummary data).totalIssuesResolved) = [] :=
        ladderFilter_nil_of_ids projectIds resolvedIds _ (resolvedBadges_ids _) (by decide)
      have z2 : ladderFilter projectIds (commentBadges (calculateSummary data).totalComments) = [] :=
        ladderFilter_nil_of_ids projectIds commentIds _ (commentBadges_ids _) (by decide)
      have z3 : ladderFilter projectIds (articleBadges (calculateSummary data).totalArticles) = [] :=
        ladderFilter_nil_of_ids projectIds articleIds _ (articleBadges_ids _) (by decide)
      have z4 : ladderFilter projectIds (streakBadges (calculateTimeStats tz data).longestStreak.days) = [] :=
        ladderFilter_nil_of_ids projectIds streakIds _ (streakBadges_ids _) (by decide)
      have z6 : ladderFilter projectIds (weekendFlag (weekendActivity (calculateTimeStats tz data))) = [] :=
        ladderFilter_nil_of_ids projectIds ["weekend_warrior"] _ (weekendFlag_ids _) (by decide)
      have z7 : ladderFilter projectIds (nightFlag (nightActivity (calculateTimeStats tz data))) = [] :=
        ladderFilter_nil_of_ids projectIds ["night_owl"] _ (nightFlag_ids _) (by decide)
      have z8 : ladderFilter projectIds (morningFlag (morningActivity (calculateTimeStats tz data))) = [] :=
        ladderFilter_nil_of_ids projectIds ["early_bird"] _ (morningFlag_ids _) (by decide)
      have hb := le_trans (ladderFilter_len_le projectIds (projectBadges (calculateProjectStats data).totalProjects))
        (projectBadges_len (calculateProjectStats data).totalProjects)
      rw [z0, z1, z2, z3, z4, z6, z7, z8]
      simp only [List.length_nil]
      omega
  · intro tz data
    have hdec : calculateAchievements tz data =
        issueCreatedBadges (calculateSummary data).totalIssuesCreated ++
        resolvedBadges (calculateSummary data).totalIssuesResolved ++
        commentBadges (calculateSummary data).totalComments ++
        articleBadges (calculateSummary data).totalArticles ++
        streakBadges (calculateTimeStats tz data).longestStreak.days ++
        projectBadges (calculateProjectStats data).totalProjects ++
        weekendFlag (weekendActivity (calculateTimeStats tz data)) ++
        nightFlag (nightActivity (calculateTimeStats tz data)) ++
        morningFlag (morningActivity (calculateTimeStats tz data)) := rfl
    refine ⟨?_, ?_, ?_⟩
    · rw [exists_id_iff_ladderFilter, hdec]
      simp only [ladderFilter_append]
      have z0 : ladderFilter ["weekend_warrior"] (issueCreatedBadges (calculateSummary data).totalIssuesCreated) = [] :=
        ladderFilter_nil_of_ids ["weekend_warrior"] issueCreatedIds _ (issueCreatedBadges_ids _) (by decide)
      have z1 : ladderFilter ["weekend_warrior"] (resolvedBadges (calculateSummary data).totalIssuesResolved) = [] :=
        ladderFilter_nil_of_ids ["weekend_warrior"] resolvedIds _ (resolvedBadges_ids _) (by decide)
      have z2 : ladderFilter ["weekend_warrior"] (commentBadges (calculateSummary data).totalComments) = [] :=
        ladderFilter_nil_of_ids ["weekend_warrior"] commentIds _ (commentBadges_ids _) (by decide)
      have z3 : ladderFilter ["weekend_warrior"] (articleBadges (calculateSummary data).totalArticles) = [] :=
        ladderFilter_nil_of_ids ["weekend_warrior"] articleIds _ (articleBadges_ids _) (by decide)
      have z4 : ladderFilter ["weekend_warrior"] (streakBadges (calculateTimeStats tz data).longestStreak.days) = [] :=
        ladderFilter_nil_of_ids ["weekend_warrior"] streakIds _ (streakBadges_ids _) (by decide)
      have z5 : ladderFilter ["weekend_warrior"] (projectBadges (calculateProjectStats data).totalProjects) = [] :=
        ladderFilter_nil_of_ids ["weekend_warrior"] projectIds _ (projectBadges_ids _) (by decide)
      have z7 : ladderFilter ["weekend_warrior"] (nightFlag (nightActivity (calculateTimeStats tz data))) = [] :=
        ladderFilter_nil_of_ids ["weekend_warrior"] ["night_owl"] _ (nightFlag_ids _) (by decide)
      have z8 : ladderFilter ["weekend_warrior"] (morningFlag (morningActivity (calculateTimeStats tz data))) = [] :=
        ladderFilter_nil_of_ids ["weekend_warrior"] ["early_bird"] _ (morningFlag_ids _) (by decide)
      rw [z0, z1, z2, z3, z4, z5, z7, z8, ladderFilter_self_weekend]
      simp only [List.nil_append, List.append_nil]
      exact weekendFlag_ne_nil _
    · rw [exists_id_iff_ladderFilter, hdec]
      simp only [ladderFilter_append]
      have z0 : ladderFilter ["night_owl"] (issueCreatedBadges (calculateSummary data).totalIssuesCreated) = [] :=
        ladderFilter_nil_of_ids ["night_owl"] issueCreatedIds _ (issueCreatedBadges_ids _) (by decide)
      have z1 : ladderFilter ["night_owl"] (resolvedBadges (calculateSummary data).totalIssuesResolved) = [] :=
        ladderFilter_nil_of_ids ["night_owl"] resolvedIds _ (resolvedBadges_ids _) (by decide)
      have z2 : ladderFilter ["night_owl"] (commentBadges (calculateSummary data).totalComments) = [] :=
        ladderFilter_nil_of_ids ["night_owl"] commentIds _ (commentBadges_ids _) (by decide)
      have z3 : ladderFilter ["night_owl"] (articleBadges (calculateSummary data).totalArticles) = [] :=
        ladderFilter_nil_of_ids ["night_owl"] articleIds _ (articleBadges_ids _) (by decide)
      have z4 : ladderFilter ["night_owl"] (streakBadges (calculateTimeStats tz data).longestStreak.days) = [] :=
        ladderFilter_nil_of_ids ["night_owl"] streakIds _ (streakBadges_ids _) (by decide)
      have z5 : ladderFilter ["night_owl"] (projectBadges (calculateProjectStats data).totalProjects) = [] :=
        ladderFilter_nil_of_ids ["night_owl"] projectIds _ (projectBadges_ids _) (by decide)
      have z6 : ladderFilter ["night_owl"] (weekendFlag (weekendActivity (calculateTimeStats tz data))) = [] :=
        ladderFilter_nil_of_ids ["night_owl"] ["weekend_warrior"] _ (weekendFlag_ids _) (by decide)
      have z8 : ladderFilter ["night_owl"] (morningFlag (morningActivity (calculateTimeStats tz data))) = [] :=
        ladderFilter_nil_of_ids ["night_owl"] ["early_bird"] _ (morningFlag_ids _) (by decide)
      rw [z0, z1, z2, z3, z4, z5, z6, z8, ladderFilter_self_night]
      simp only [List.nil_append, List.append_nil]
      exact nightFlag_ne_nil _
    · rw [exists_id_iff_ladderFilter, hdec]
      simp only [ladderFilter_append]
      have z0 : ladderFilter ["early_bird"] (issueCreatedBadges (calculateSummary data).totalIssuesCreated) = [] :=
        ladderFilter_nil_of_ids ["early_bird"] issueCreatedIds _ (issueCreatedBadges_ids _) (by decide)
      have z1 : ladderFilter ["early_bird"] (resolvedBadges (calculateSummary data).totalIssuesResolved) = [] :=
        ladderFilter_nil_of_ids ["early_bird"] resolvedIds _ (resolvedBadges_ids _) (by decide)
      have z2 : ladderFilter ["early_bird"] (commentBadges (calculateSummary data).totalComments) = [] :=
        ladderFilter_nil_of_ids ["early_bird"] commentIds _ (commentBadges_ids _) (by decide)
      have z3 : ladderFilter ["early_bird"] (articleBadges (calculateSummary data).totalArticles) = [] :=
        ladderFilter_nil_of_ids ["early_bird"] articleIds _ (articleBadges_ids _) (by decide)
      have z4 : ladderFilter ["early_bird"] (streakBadges (calculateTimeStats tz data).longestStreak.days) = [] :=
        ladderFilter_nil_of_ids ["early_bird"] streakIds _ (streakBadges_ids _) (by decide)
      have z5 : ladderFilter ["early_bird"] (projectBadges (calculateProjectStats data).totalProjects) = [] :=
        ladderFilter_nil_of_ids ["early_bird"] projectIds _ (projectBadges_ids _) (by decide)
      have z6 : ladderFilter ["early_bird"] (weekendFlag (weekendActivity (calculateTimeStats tz data))) = [] :=
        ladderFilter_nil_of_ids ["early_bird"] ["weekend_warrior"] _ (weekendFlag_ids _) (by decide)
      have z7 : ladderFilter ["early_bird"] (nightFlag (nightActivity (calculateTimeStats tz data))) = [] :=
        ladderFilter_nil_of_ids ["early_bird"] ["night_owl"] _ (nightFlag_ids _) (by decide)
      rw [z0, z1, z2, z3, z4, z5, z6, z7, ladderFilter_self_morning]
      simp only [List.nil_append, List.append_nil]
      exact morningFlag_ne_nil _

/-! ## C1: the empty dataset -/

/-- C1 counterexample: the claim says the empty dataset yields `funFacts = []`,
but the report's fun-fact list is not empty — the busiest-weekday fact and the
hour-personality fact are emitted even with zero activity, because the
busiest-day and busiest-hour objects always exist (with count 0) and are
truthy. -/
theorem spec_C1_counterexample :
    (calculateAll 0 emptyData).funFacts ≠ [] := by
  decide

/-- C1 (amended): the empty dataset yields `achievements = []`,
`topProject = null`, `longestStreak = {days: 0, startDate: null, endDate:
null}` and no division by zero anywhere (every modelled division is defined:
both resolution-time averages and the comment and article length averages
are plain zeros), but `funFacts` consists of exactly two facts — the
busiest-weekday fact ("📅", Sunday with 0 activities) and the
hour-personality fact ("⏰", hour 0 = Night Owl) — rather than being empty. -/
theorem spec_C1_amended :
    (calculateAll 0 emptyData).achievements = [] ∧
    (calculateAll 0 emptyData).projectStats.topProject = none ∧
    (calculateAll 0 emptyData).timeStats.longestStreak = ⟨0, none, none⟩ ∧
    ((calculateAll 0 emptyData).funFacts =
      [⟨"📅", "Sunday was your power day", "0 activities on Sundays"⟩,
       ⟨"⏰", "You are a Night Owl", "Most active around 0:00"⟩]) ∧
    (calculateAll 0 emptyData).issueStats.avgResolutionTimeMs = some 0 ∧
    (calculateAll 0 emptyData).issueStats.avgResolutionTimeDays = some 0 ∧
    (calculateAll 0 emptyData).commentStats.avgLength = some 0 ∧
    (calculateAll 0 emptyData).articleStats.avgContentLength = some 0 ∧
    (calculateAll 0 emptyData).summary.totalContributions = 0 := by
  have hsum : calculateSummary emptyData = ⟨0, 0, 0, 0, 0⟩ := by decide
  have hcs : calculateCommentStats emptyData = ⟨0, some 0, 0, none, none, none⟩ := by
    decide
  have hts : calculateTimeStats 0 emptyData =
      ⟨[(1, 0), (2, 0), (3, 0), (4, 0), (5, 0), (6, 0), (7, 0), (8, 0), (9, 0),
        (10, 0), (11, 0), (12, 0)],
       [(0, 0), (1, 0), (2, 0), (3, 0), (4, 0), (5, 0), (6, 0)],
       [(0, 0), (1, 0), (2, 0), (3, 0), (4, 0), (5, 0), (6, 0), (7, 0), (8, 0),
        (9, 0), (10, 0), (11, 0), (12, 0), (13, 0), (14, 0), (15, 0), (16, 0),
        (17, 0), (18, 0), (19, 0), (20, 0), (21, 0), (22, 0), (23, 0)],
       some ⟨1, "January", 0⟩, some ⟨0, "Sunday", 0⟩, some ⟨0, 0⟩,
       ⟨0, none, none⟩⟩ := by decide
  have hmf : ¬(((0 : Nat) : ℚ) / 12 ≥ 1) := by norm_num
  have hff : calculateFunFacts 0 emptyData =
      [⟨"📅", "Sunday was your power day", "0 activities on Sundays"⟩,
       ⟨"⏰", "You are a Night Owl", "Most active around 0:00"⟩] := by
    simp only [calculateFunFacts, hsum, hcs, hts, hmf]
    norm_num
    decide
  have hdays : (calculateIssueStats emptyData).avgResolutionTimeDays =
      ((calculateIssueStats emptyData).avgResolutionTimeMs).map
        (fun q => round (q / (1000 * 60 * 60 * 24))) := rfl
  have hms : (calculateIssueStats emptyData).avgResolutionTimeMs = some 0 := by decide
  refine ⟨by decide, by decide, by decide, hff, hms, ?_, by decide, by decide, by decide⟩
  show (calculateIssueStats emptyData).avgResolutionTimeDays = some 0
  rw [hdays, hms, Option.map_some']
  norm_num
